import Mathlib

/-!
# Bootloader (egyptianego17/Bootloader): a shallow embedding of `BTL_Program.c`

The C functions of `Core/Src/BTL_Program.c` are rendered as Lean functions.

* Machine integers are `Nat`; every store into a `uint8_t`, `uint16_t` or
  `uint32_t` object carries the matching `% 2^w`.  `int` is 32 bits wide (the
  target is an STM32F4).
* `dataBuffer` is the memory seen through the pointer: a function from the
  index to the byte stored there, read through `rd` (which truncates to 8 bits).
* The record block `BTL_RecordTypeDef` is passed in and handed back.
* The effects on the outside world are collected in `World`: the state of the
  flash lock, the list of `HAL_FLASH_Program` calls, the buffer indices that were
  read, the UART traffic.
* The vendor HAL and libc are not part of the repository.  What they answer is a
  parameter: `Env` gives the status of every `HAL_UART_Transmit` and
  `HAL_FLASH_Program` call (by call number), the value `HAL_FLASHEx_Erase`
  leaves in `SECTOR_ERROR`, and the outcome of every `malloc`; the receptions
  of `HAL_UART_Receive` are a list `List Rx`.
-/

namespace BTL

/-! ## Constants of `BTL_Private.h` and `BTL_Interface.h` -/

abbrev BTL_CC_0 : Nat := 0
abbrev BTL_CC_1 : Nat := 1
abbrev BTL_ADD_0 : Nat := 2
abbrev BTL_ADD_1 : Nat := 3
abbrev BTL_ADD_2 : Nat := 4
abbrev BTL_ADD_3 : Nat := 5
abbrev BTL_RT_0 : Nat := 6
abbrev BTL_RT_1 : Nat := 7
abbrev BTL_DATA_0 : Nat := 8
abbrev BTL_DATA_1 : Nat := 9
abbrev BTL_DATA_2 : Nat := 10
abbrev BTL_DATA_3 : Nat := 11
abbrev BTL_FULL_ADD0 : Nat := 0
abbrev BTL_FULL_ADD1 : Nat := 1
abbrev BTL_FULL_ADD2 : Nat := 2
abbrev BTL_FULL_ADD3 : Nat := 3
abbrev BTL_FULL_ADD4 : Nat := 4
abbrev BTL_FULL_ADD5 : Nat := 5
abbrev BTL_FULL_ADD6 : Nat := 6
abbrev BTL_FULL_ADD7 : Nat := 7

abbrev BTL_CMD_TYPE : Nat := 2
abbrev BTL_BUFFER_RECORDS0 : Nat := 4
abbrev BTL_DONE_FLAG : Nat := 3
abbrev BTL_BUFFER_NEXT_SIZE0 : Nat := 5
abbrev BTL_BUFFER_NEXT_SIZE1 : Nat := 6
abbrev BTL_DATA_START : Nat := 7

abbrev BTL_BOOTLOADER_SIZE : Nat := 0x8000
abbrev BTL_MIN_ADDRESS : Nat := 0x08000000
abbrev BTL_MAX_ADDRESS : Nat := 0x0805FFFF
abbrev BTL_MIN_CC : Nat := 0x00
abbrev BTL_MAX_CC : Nat := 0x10
abbrev MAX_TIMEOUT : Nat := 5
abbrev DATA_BUFFER_SIZE : Nat := 2048

/-- Status `BTL_OK` of `BTL_StatusTypeDef`. -/
abbrev BTL_OK : Nat := 0x00
/-- Status `BTL_ERROR` of `BTL_StatusTypeDef`. -/
abbrev BTL_ERROR : Nat := 0x01

abbrev BTL_DATA_RECORD_TYPE : Nat := 0x00
abbrev BTL_EOF_RECORD_TYPE : Nat := 0x01
abbrev BTL_EXT_SEGMENT_ADDR_RECORD : Nat := 0x02
abbrev BTL_EXT_LINEAR_ADDR_RECORD : Nat := 0x04
abbrev BTL_START_LINEAR_ADDR_RECORD : Nat := 0x05

/-- Command id `BTL_APP_FLASH` of `BTL_CMDTypeDef`. -/
abbrev BTL_APP_FLASH : Nat := 0x04

/-- Status `HAL_OK` of the vendor HAL (the value 0 of `HAL_StatusTypeDef`). -/
abbrev HAL_OK : Nat := 0x00

/-- Application region named by the specification: `FLASH_BASE + BOOTLOADER_SIZE`. -/
abbrev APP_BASE : Nat := 0x08008000
/-- Last address of the application region named by the specification. -/
abbrev APP_MAX : Nat := 0x0805FFFF

/-! ## Data model -/

/-- The struct `BTL_RecordTypeDef`. -/
structure BTL_RecordTypeDef where
  BTL_CC : Nat
  BTL_ADD : Nat
  BTL_RECORD_TYPE : Nat
  BTL_DATA : Nat
  BTL_CHECKSUM : Nat
  BTL_RECORD_INDEX : Nat
  BTL_BUFFER_POINTER : Nat
  BTL_ADDRESS_HIGH : Nat
  BTL_NO_OF_BUFFER_RECORDS : Nat
deriving DecidableEq, Repr

/-- What the program does to its surroundings. -/
structure World where
  /-- Whether the flash controller is locked (`HAL_FLASH_Lock` / `HAL_FLASH_Unlock`). -/
  flashLocked : Bool
  /-- The calls `HAL_FLASH_Program (FLASH_TYPEPROGRAM_BYTE, address, data)`, oldest first. -/
  programs : List (Nat × Nat)
  /-- The indices of `dataBuffer` that were read, oldest first. -/
  reads : List Nat
  /-- The byte arrays handed to `HAL_UART_Transmit`, oldest first. -/
  uartTx : List (List Nat)
  /-- The calls of `HAL_UART_Receive`: index into `messageBuffer` and `Size`. -/
  uartRx : List (Nat × Nat)
  /-- The number of `HAL_FLASHEx_Erase` calls. -/
  erases : Nat
  /-- The number of `malloc` calls. -/
  mallocs : Nat
  /-- The done flag of every packet handed to `BTL_FlashWrite`, oldest first. -/
  packets : List Nat
deriving DecidableEq, Repr

/-- The answers of the vendor HAL and of libc. -/
structure Env where
  /-- Status returned by the k-th call of `HAL_UART_Transmit`. -/
  uartTransmit : Nat → Nat
  /-- Status returned by the k-th call of `HAL_FLASH_Program`. -/
  flashProgram : Nat → Nat
  /-- Value found in `SECTOR_ERROR` after `HAL_FLASHEx_Erase`. -/
  sectorError : Nat
  /-- Outcome of the k-th `malloc`: `none` for `NULL`, else the (uninitialised) block. -/
  malloc : Nat → Option BTL_RecordTypeDef

/-- One completed call of `HAL_UART_Receive`: its status and the bytes that arrived. -/
structure Rx where
  status : Nat
  bytes : List Nat
deriving DecidableEq, Repr

/-- Read of the `uint8_t` at index `i` of a buffer. -/
def rd (buf : Nat → Nat) (i : Nat) : Nat := buf i % 256

/-- A buffer holding the given bytes from index 0 on, and 0 behind them. -/
def bufOfList (l : List Nat) : Nat → Nat := fun i => l.getD i 0

/-- The code points of a text, as bytes. -/
def asciiBytes (s : String) : List Nat := s.toList.map Char.toNat

/-! ## `BTL_ASCHIIToHex` and `CalculateChecksum` -/

/-- Source `BTL_ASCHIIToHex`: the value of one ASCII hex digit, 0 for any other byte. -/
def BTL_ASCHIIToHex (ASCHIIValue : Nat) : Nat :=
  if 48 ≤ ASCHIIValue ∧ ASCHIIValue ≤ 57 then
    (ASCHIIValue - 48) % 256
  else if 65 ≤ ASCHIIValue ∧ ASCHIIValue ≤ 70 then
    (ASCHIIValue - 65 + 10) % 256
  else if 97 ≤ ASCHIIValue ∧ ASCHIIValue ≤ 102 then
    (ASCHIIValue - 97 + 10) % 256
  else
    0

/-- The expression `(BTL_ASCHIIToHex(dataBuffer[i]) << 4) | BTL_ASCHIIToHex(dataBuffer[j])`
stored into a `uint8_t`. -/
def hexByte (dataBuffer : Nat → Nat) (i j : Nat) : Nat :=
  ((BTL_ASCHIIToHex (rd dataBuffer i) <<< 4) ||| BTL_ASCHIIToHex (rd dataBuffer j)) % 256

/-- Source `CalculateChecksum`, the loop: `sum += data[i]` on a `uint16_t`. -/
def checksumSum (data : List Nat) : Nat :=
  data.foldl (fun sum b => (sum + b % 256) % 65536) 0

/-- Source `CalculateChecksum` over the array `data` (its `length` is the length of the
list): `(uint8_t)(~sum + 1)`, where `~sum` is taken on the promoted 32-bit `int`. -/
def CalculateChecksum (data : List Nat) : Nat :=
  ((4294967295 - checksumSum data) + 1) % 256

/-! ## `BTL_CheckRecord` -/

/-- The array `CRC_Buffer` that `BTL_CheckRecord` fills: `BTL_CC + 4` decoded bytes. -/
def CRC_Buffer (dataBuffer : Nat → Nat) (currentRecord : BTL_RecordTypeDef) : List Nat :=
  (List.range (currentRecord.BTL_CC + 4)).map fun bytesCounter =>
    hexByte dataBuffer (currentRecord.BTL_BUFFER_POINTER + bytesCounter * 2)
      (currentRecord.BTL_BUFFER_POINTER + bytesCounter * 2 + 1)

/-- The buffer indices read while `CRC_Buffer` is filled. -/
def CRC_reads (currentRecord : BTL_RecordTypeDef) : List Nat :=
  (List.range (currentRecord.BTL_CC + 4)).flatMap fun bytesCounter =>
    [currentRecord.BTL_BUFFER_POINTER + bytesCounter * 2,
     currentRecord.BTL_BUFFER_POINTER + bytesCounter * 2 + 1]

/-- Source `BTL_CheckRecord` (`calloc` is taken to succeed). -/
def BTL_CheckRecord (dataBuffer : Nat → Nat) (currentRecord : BTL_RecordTypeDef)
    (w : World) : Nat × World :=
  if BTL_MIN_ADDRESS ≤ currentRecord.BTL_ADD ∧ currentRecord.BTL_ADD ≤ BTL_MAX_ADDRESS ∧
      BTL_MIN_CC ≤ currentRecord.BTL_CC ∧ currentRecord.BTL_CC ≤ BTL_MAX_CC then
    let mcuCHECKSUM := CalculateChecksum (CRC_Buffer dataBuffer currentRecord)
    let w1 := { w with reads := w.reads ++ CRC_reads currentRecord }
    (if mcuCHECKSUM = currentRecord.BTL_CHECKSUM then BTL_OK else BTL_ERROR, w1)
  else
    (BTL_ERROR, w)

/-! ## `BTL_HexFlasher` -/

/-- One pass of the programming loop of `BTL_HexFlasher`, for the given `bytesCounter`. -/
def programByte (hal : Nat → Nat) (dataBuffer : Nat → Nat)
    (s : Nat × BTL_RecordTypeDef × World) (bytesCounter : Nat) :
    Nat × BTL_RecordTypeDef × World :=
  let currentRecord := s.2.1
  let w := s.2.2
  let p := currentRecord.BTL_BUFFER_POINTER
  let r1 := { currentRecord with
    BTL_DATA := hexByte dataBuffer (p + BTL_DATA_0 + bytesCounter * 2)
                  (p + BTL_DATA_1 + bytesCounter * 2) }
  let address := (r1.BTL_ADD + BTL_BOOTLOADER_SIZE + bytesCounter) % 4294967296
  (hal w.programs.length, r1,
   { w with
     reads := w.reads ++ [p + BTL_DATA_0 + bytesCounter * 2, p + BTL_DATA_1 + bytesCounter * 2]
     programs := w.programs ++ [(address, r1.BTL_DATA)] })

/-- The programming loop of `BTL_HexFlasher`: `bytesCounter` runs from 0 to `BTL_CC - 1`. -/
def programLoop (hal : Nat → Nat) (dataBuffer : Nat → Nat)
    (s : Nat × BTL_RecordTypeDef × World) : Nat × BTL_RecordTypeDef × World :=
  (List.range s.2.1.BTL_CC).foldl (programByte hal dataBuffer) s

/-- Source `BTL_HexFlasher`: returns the status, the record block and the world. -/
def BTL_HexFlasher (hal : Nat → Nat) (dataBuffer : Nat → Nat)
    (currentRecord : BTL_RecordTypeDef) (w : World) : Nat × BTL_RecordTypeDef × World :=
  let p := currentRecord.BTL_BUFFER_POINTER
  let r1 := { currentRecord with BTL_ADDRESS_HIGH := 0x0800 }
  let r2 := { r1 with BTL_RECORD_TYPE := hexByte dataBuffer (p + BTL_RT_0) (p + BTL_RT_1) }
  let r3 := { r2 with BTL_CC := hexByte dataBuffer (p + BTL_CC_0) (p + BTL_CC_1) }
  let r4 := { r3 with
    BTL_CHECKSUM := hexByte dataBuffer (p + r3.BTL_CC * 2 + 8) (p + r3.BTL_CC * 2 + 9) }
  let w1 := { w with
    reads := w.reads ++ [p + BTL_RT_0, p + BTL_RT_1, p + BTL_CC_0, p + BTL_CC_1,
                         p + r3.BTL_CC * 2 + 8, p + r3.BTL_CC * 2 + 9] }
  if r4.BTL_RECORD_TYPE = BTL_EOF_RECORD_TYPE then
    (BTL_OK, r4, w1)
  else if r4.BTL_RECORD_TYPE = BTL_DATA_RECORD_TYPE then
    let r5 := { r4 with
      BTL_ADD := ((r4.BTL_ADDRESS_HIGH <<< 16) |||
                  (BTL_ASCHIIToHex (rd dataBuffer (p + BTL_ADD_0)) <<< 12) |||
                  (BTL_ASCHIIToHex (rd dataBuffer (p + BTL_ADD_1)) <<< 8) |||
                  (BTL_ASCHIIToHex (rd dataBuffer (p + BTL_ADD_2)) <<< 4) |||
                  BTL_ASCHIIToHex (rd dataBuffer (p + BTL_ADD_3))) % 4294967296 }
    let w2 := { w1 with
      reads := w1.reads ++ [p + BTL_ADD_0, p + BTL_ADD_1, p + BTL_ADD_2, p + BTL_ADD_3] }
    let c := BTL_CheckRecord dataBuffer r5 w2
    if c.1 = BTL_OK then
      let s := programLoop hal dataBuffer (BTL_OK, r5, c.2)
      (s.1, { s.2.1 with BTL_BUFFER_POINTER := (p + (s.2.1.BTL_CC * 2 + 11)) % 65536 }, s.2.2)
    else
      (BTL_ERROR, r5, c.2)
  else if r4.BTL_RECORD_TYPE = BTL_EXT_LINEAR_ADDR_RECORD then
    let r5 := { r4 with
      BTL_ADDRESS_HIGH := ((BTL_ASCHIIToHex (rd dataBuffer (p + BTL_DATA_0)) <<< 12) |||
                           (BTL_ASCHIIToHex (rd dataBuffer (p + BTL_DATA_1)) <<< 8) |||
                           (BTL_ASCHIIToHex (rd dataBuffer (p + BTL_DATA_2)) <<< 4) |||
                           BTL_ASCHIIToHex (rd dataBuffer (p + BTL_DATA_3))) % 65536 }
    let w2 := { w1 with
      reads := w1.reads ++ [p + BTL_DATA_0, p + BTL_DATA_1, p + BTL_DATA_2, p + BTL_DATA_3] }
    (BTL_OK, { r5 with BTL_BUFFER_POINTER := (p + (r5.BTL_CC * 2 + 11)) % 65536 }, w2)
  else if r4.BTL_RECORD_TYPE = BTL_START_LINEAR_ADDR_RECORD then
    let r5 := { r4 with
      BTL_ADD := ((BTL_ASCHIIToHex (rd dataBuffer (p + BTL_FULL_ADD0)) <<< 28) |||
                  (BTL_ASCHIIToHex (rd dataBuffer (p + BTL_FULL_ADD1)) <<< 24) |||
                  (BTL_ASCHIIToHex (rd dataBuffer (p + BTL_FULL_ADD2)) <<< 20) |||
                  (BTL_ASCHIIToHex (rd dataBuffer (p + BTL_FULL_ADD3)) <<< 16) |||
                  (BTL_ASCHIIToHex (rd dataBuffer (p + BTL_FULL_ADD4)) <<< 12) |||
                  (BTL_ASCHIIToHex (rd dataBuffer (p + BTL_FULL_ADD5)) <<< 8) |||
                  (BTL_ASCHIIToHex (rd dataBuffer (p + BTL_FULL_ADD6)) <<< 4) |||
                  BTL_ASCHIIToHex (rd dataBuffer (p + BTL_FULL_ADD7))) % 4294967296 }
    let w2 := { w1 with
      reads := w1.reads ++ [p + BTL_FULL_ADD0, p + BTL_FULL_ADD1, p + BTL_FULL_ADD2,
                            p + BTL_FULL_ADD3, p + BTL_FULL_ADD4, p + BTL_FULL_ADD5,
                            p + BTL_FULL_ADD6, p + BTL_FULL_ADD7] }
    (BTL_OK, { r5 with BTL_BUFFER_POINTER := (p + (r5.BTL_CC * 2 + 11)) % 65536 }, w2)
  else
    (BTL_ERROR, r4, w1)

/-! ## `BTL_FlashWrite` -/

/-- The `while` loop of `BTL_FlashWrite`.  `fuel` bounds the number of passes; `none`
means that the loop is still running when the fuel is used up. -/
def BTL_FlashWrite_loop (hal : Nat → Nat) (dataBuffer : Nat → Nat) :
    Nat → Nat → Nat → BTL_RecordTypeDef → World → Option (Nat × BTL_RecordTypeDef × World)
  | fuel, FlashFailure, BTL_STATUS, currentRecord, w =>
    if currentRecord.BTL_RECORD_INDEX < currentRecord.BTL_NO_OF_BUFFER_RECORDS then
      match fuel with
      | 0 => none
      | fuel + 1 =>
        let h := BTL_HexFlasher hal dataBuffer currentRecord w
        let r1 := if h.1 = BTL_OK then
            { h.2.1 with BTL_RECORD_INDEX := (h.2.1.BTL_RECORD_INDEX + 1) % 65536 }
          else h.2.1
        let BTL_STATUS1 := if h.1 = BTL_OK then BTL_OK else BTL_STATUS
        let FlashFailure1 := if h.1 = BTL_OK then FlashFailure else (FlashFailure + 1) % 256
        if MAX_TIMEOUT ≤ FlashFailure1 then
          some (BTL_ERROR, r1, h.2.2)
        else
          BTL_FlashWrite_loop hal dataBuffer fuel FlashFailure1 BTL_STATUS1 r1 h.2.2
    else
      some (BTL_STATUS, currentRecord, w)

/-- Source `BTL_FlashWrite`.  The loop gets `BTL_NO_OF_BUFFER_RECORDS + MAX_TIMEOUT`
passes, which is more than it can use (`BTL_FlashWrite_returns`). -/
def BTL_FlashWrite (hal : Nat → Nat) (dataBuffer : Nat → Nat) (dataLength : Nat)
    (currentRecord : BTL_RecordTypeDef) (w : World) :
    Option (Nat × BTL_RecordTypeDef × World) :=
  let _ := dataLength
  BTL_FlashWrite_loop hal dataBuffer (currentRecord.BTL_NO_OF_BUFFER_RECORDS + MAX_TIMEOUT)
    0 BTL_ERROR { currentRecord with BTL_BUFFER_POINTER := 0 } w

/-! ## UART replies -/

/-- The array `message[512]` of `BTL_SendMessage` after `vsnprintf` with the format
`"%c"` and the argument `c`: the character, then zeros. -/
def formatChar (c : Nat) : List Nat := (c % 256) :: List.replicate 511 0

/-- Source `BTL_SendMessage`, from the formatted array `message` on: the whole array
(`sizeof(message)` bytes) is handed to `HAL_UART_Transmit`. -/
def BTL_SendMessage (env : Env) (message : List Nat) (w : World) : Nat × World :=
  (if env.uartTransmit w.uartTx.length = HAL_OK then BTL_OK else BTL_ERROR,
   { w with uartTx := w.uartTx ++ [message] })

/-- Source `BTL_SendAck`. -/
def BTL_SendAck (env : Env) (cmdID : Nat) (w : World) : Nat × World :=
  let m := BTL_SendMessage env (formatChar cmdID) w
  (if m.1 = BTL_OK then BTL_OK else BTL_ERROR, m.2)

/-- Source `BTL_SendNAck`. -/
def BTL_SendNAck (env : Env) (w : World) : Nat × World :=
  let m := BTL_SendMessage env (formatChar 0) w
  (if m.1 = BTL_OK then BTL_OK else BTL_ERROR, m.2)

/-! ## `BTL_UpdateFirmware` -/

/-- Modelled from the spec: the effect of `HAL_UART_Receive` (the transport's
`recv_exact`, vendor code that `BTL_Program.c` only calls) on the buffer: the bytes that
arrived, at most `Size` of them, are stored from index `offset` on. -/
def received (rx : Rx) (messageBuffer : Nat → Nat) (offset Size : Nat) : Nat → Nat :=
  fun i =>
    if offset ≤ i ∧ i < offset + min Size rx.bytes.length then
      rx.bytes.getD (i - offset) 0 % 256
    else messageBuffer i

/-- The `do ... while` loop of `BTL_UpdateFirmware`, entered with the flash unlocked.
Every further packet takes one reception from the list; `none` means that the function
does not return (it waits in `HAL_UART_Receive` for a packet that never comes, or
`BTL_FlashWrite` does not return). -/
def BTL_UpdateFirmware_loop (env : Env) :
    List Rx → Nat → (Nat → Nat) → Nat → World → Option (Nat × World)
  | rxs, FlashFailure, messageBuffer, dataLength, w =>
    let BTL_DONE := rd messageBuffer BTL_DONE_FLAG
    let w1 := { w with mallocs := w.mallocs + 1 }
    match env.malloc w.mallocs with
    | none => some (BTL_ERROR, w1)
    | some block =>
      let RecordsData := { block with
        BTL_NO_OF_BUFFER_RECORDS := rd messageBuffer BTL_BUFFER_RECORDS0
        BTL_RECORD_INDEX := 0 }
      (BTL_FlashWrite env.flashProgram (fun i => messageBuffer (BTL_DATA_START + i))
          dataLength RecordsData { w1 with packets := w1.packets ++ [BTL_DONE] }).bind fun f =>
        if f.1 = BTL_OK then
          let w2 := (BTL_SendAck env BTL_APP_FLASH f.2.2).2
          let dataLength1 := ((rd messageBuffer BTL_BUFFER_NEXT_SIZE0 <<< 4) |||
                              rd messageBuffer BTL_BUFFER_NEXT_SIZE1) % 65536
          let messageBuffer1 := fun i => if i < DATA_BUFFER_SIZE then 0 else messageBuffer i
          if MAX_TIMEOUT ≤ FlashFailure ∨ BTL_DONE = BTL_OK then
            some (BTL_OK, { w2 with flashLocked := true })
          else
            match rxs with
            | [] => none
            | rx :: rest =>
              let Size := (dataLength1 + 4) % 65536
              let w3 := { w2 with uartRx := w2.uartRx ++ [(BTL_CMD_TYPE, Size)] }
              let messageBuffer2 := received rx messageBuffer1 BTL_CMD_TYPE Size
              if rx.status ≠ HAL_OK then
                some (BTL_ERROR, w3)
              else if BTL_DONE ≠ BTL_OK then
                BTL_UpdateFirmware_loop env rest FlashFailure messageBuffer2 dataLength1 w3
              else
                some (BTL_OK, { w3 with flashLocked := true })
        else
          let w2 := (BTL_SendNAck env f.2.2).2
          some (BTL_ERROR, { w2 with flashLocked := true })

/-- Source `BTL_UpdateFirmware`: the status returned and the world at the return, or
`none` when the function does not return. -/
def BTL_UpdateFirmware (env : Env) (rxs : List Rx) (messageBuffer : Nat → Nat)
    (dataLength : Nat) (w : World) : Option (Nat × World) :=
  let a := BTL_SendAck env BTL_APP_FLASH w
  if a.1 ≠ BTL_OK then
    some (BTL_ERROR, a.2)
  else
    match rxs with
    | [] => none
    | rx :: rest =>
      let Size := (dataLength + 4) % 65536
      let w1 := { a.2 with uartRx := a.2.uartRx ++ [(BTL_DONE_FLAG, Size)] }
      let messageBuffer1 := received rx messageBuffer BTL_DONE_FLAG Size
      if rx.status ≠ HAL_OK then
        some (BTL_ERROR, w1)
      else
        let w2 := { w1 with flashLocked := false }
        let w3 := { w2 with erases := w2.erases + 1 }
        if env.sectorError % 4294967296 = 0xFFFFFFFF then
          BTL_UpdateFirmware_loop env rest 0 messageBuffer1 dataLength w3
        else
          some (BTL_ERROR, { w3 with flashLocked := true })

/-! ## The decoding steps of `BTL_HexFlasher`, named -/

/-- The record block once `BTL_HexFlasher` has decoded type, count and checksum. -/
def headerOf (buf : Nat → Nat) (r : BTL_RecordTypeDef) : BTL_RecordTypeDef :=
  { r with
    BTL_ADDRESS_HIGH := 0x0800
    BTL_RECORD_TYPE := hexByte buf (r.BTL_BUFFER_POINTER + BTL_RT_0) (r.BTL_BUFFER_POINTER + BTL_RT_1)
    BTL_CC := hexByte buf (r.BTL_BUFFER_POINTER + BTL_CC_0) (r.BTL_BUFFER_POINTER + BTL_CC_1)
    BTL_CHECKSUM :=
      hexByte buf
        (r.BTL_BUFFER_POINTER
          + hexByte buf (r.BTL_BUFFER_POINTER + BTL_CC_0) (r.BTL_BUFFER_POINTER + BTL_CC_1) * 2 + 8)
        (r.BTL_BUFFER_POINTER
          + hexByte buf (r.BTL_BUFFER_POINTER + BTL_CC_0) (r.BTL_BUFFER_POINTER + BTL_CC_1) * 2 + 9) }

/-- The world once `BTL_HexFlasher` has decoded type, count and checksum. -/
def headerWorld (buf : Nat → Nat) (r : BTL_RecordTypeDef) (w : World) : World :=
  { w with
    reads := w.reads ++
      [r.BTL_BUFFER_POINTER + BTL_RT_0, r.BTL_BUFFER_POINTER + BTL_RT_1,
       r.BTL_BUFFER_POINTER + BTL_CC_0, r.BTL_BUFFER_POINTER + BTL_CC_1,
       r.BTL_BUFFER_POINTER
         + hexByte buf (r.BTL_BUFFER_POINTER + BTL_CC_0) (r.BTL_BUFFER_POINTER + BTL_CC_1) * 2 + 8,
       r.BTL_BUFFER_POINTER
         + hexByte buf (r.BTL_BUFFER_POINTER + BTL_CC_0) (r.BTL_BUFFER_POINTER + BTL_CC_1) * 2 + 9] }

/-- The record block of a Data record once its address has been composed. -/
def dataRecordOf (buf : Nat → Nat) (r : BTL_RecordTypeDef) : BTL_RecordTypeDef :=
  { headerOf buf r with
    BTL_ADD := (((headerOf buf r).BTL_ADDRESS_HIGH <<< 16) |||
                (BTL_ASCHIIToHex (rd buf (r.BTL_BUFFER_POINTER + BTL_ADD_0)) <<< 12) |||
                (BTL_ASCHIIToHex (rd buf (r.BTL_BUFFER_POINTER + BTL_ADD_1)) <<< 8) |||
                (BTL_ASCHIIToHex (rd buf (r.BTL_BUFFER_POINTER + BTL_ADD_2)) <<< 4) |||
                BTL_ASCHIIToHex (rd buf (r.BTL_BUFFER_POINTER + BTL_ADD_3))) % 4294967296 }

/-- The world of a Data record once its address has been composed. -/
def dataWorld (buf : Nat → Nat) (r : BTL_RecordTypeDef) (w : World) : World :=
  { headerWorld buf r w with
    reads := (headerWorld buf r w).reads ++
      [r.BTL_BUFFER_POINTER + BTL_ADD_0, r.BTL_BUFFER_POINTER + BTL_ADD_1,
       r.BTL_BUFFER_POINTER + BTL_ADD_2, r.BTL_BUFFER_POINTER + BTL_ADD_3] }

/-- The record block of an ExtLinearAddr record once the high word has been set and the
cursor moved. -/
def extRecordOf (buf : Nat → Nat) (r : BTL_RecordTypeDef) : BTL_RecordTypeDef :=
  { headerOf buf r with
    BTL_ADDRESS_HIGH :=
      ((BTL_ASCHIIToHex (rd buf (r.BTL_BUFFER_POINTER + BTL_DATA_0)) <<< 12) |||
       (BTL_ASCHIIToHex (rd buf (r.BTL_BUFFER_POINTER + BTL_DATA_1)) <<< 8) |||
       (BTL_ASCHIIToHex (rd buf (r.BTL_BUFFER_POINTER + BTL_DATA_2)) <<< 4) |||
       BTL_ASCHIIToHex (rd buf (r.BTL_BUFFER_POINTER + BTL_DATA_3))) % 65536
    BTL_BUFFER_POINTER :=
      (r.BTL_BUFFER_POINTER + ((headerOf buf r).BTL_CC * 2 + 11)) % 65536 }

/-- The world after an ExtLinearAddr record. -/
def extWorld (buf : Nat → Nat) (r : BTL_RecordTypeDef) (w : World) : World :=
  { headerWorld buf r w with
    reads := (headerWorld buf r w).reads ++
      [r.BTL_BUFFER_POINTER + BTL_DATA_0, r.BTL_BUFFER_POINTER + BTL_DATA_1,
       r.BTL_BUFFER_POINTER + BTL_DATA_2, r.BTL_BUFFER_POINTER + BTL_DATA_3] }

/-- The record block of a StartLinearAddr record once the address has been stored and
the cursor moved. -/
def startRecordOf (buf : Nat → Nat) (r : BTL_RecordTypeDef) : BTL_RecordTypeDef :=
  { headerOf buf r with
    BTL_ADD :=
      ((BTL_ASCHIIToHex (rd buf (r.BTL_BUFFER_POINTER + BTL_FULL_ADD0)) <<< 28) |||
       (BTL_ASCHIIToHex (rd buf (r.BTL_BUFFER_POINTER + BTL_FULL_ADD1)) <<< 24) |||
       (BTL_ASCHIIToHex (rd buf (r.BTL_BUFFER_POINTER + BTL_FULL_ADD2)) <<< 20) |||
       (BTL_ASCHIIToHex (rd buf (r.BTL_BUFFER_POINTER + BTL_FULL_ADD3)) <<< 16) |||
       (BTL_ASCHIIToHex (rd buf (r.BTL_BUFFER_POINTER + BTL_FULL_ADD4)) <<< 12) |||
       (BTL_ASCHIIToHex (rd buf (r.BTL_BUFFER_POINTER + BTL_FULL_ADD5)) <<< 8) |||
       (BTL_ASCHIIToHex (rd buf (r.BTL_BUFFER_POINTER + BTL_FULL_ADD6)) <<< 4) |||
       BTL_ASCHIIToHex (rd buf (r.BTL_BUFFER_POINTER + BTL_FULL_ADD7))) % 4294967296
    BTL_BUFFER_POINTER :=
      (r.BTL_BUFFER_POINTER + ((headerOf buf r).BTL_CC * 2 + 11)) % 65536 }

/-- The world after a StartLinearAddr record. -/
def startWorld (buf : Nat → Nat) (r : BTL_RecordTypeDef) (w : World) : World :=
  { headerWorld buf r w with
    reads := (headerWorld buf r w).reads ++
      [r.BTL_BUFFER_POINTER + BTL_FULL_ADD0, r.BTL_BUFFER_POINTER + BTL_FULL_ADD1,
       r.BTL_BUFFER_POINTER + BTL_FULL_ADD2, r.BTL_BUFFER_POINTER + BTL_FULL_ADD3,
       r.BTL_BUFFER_POINTER + BTL_FULL_ADD4, r.BTL_BUFFER_POINTER + BTL_FULL_ADD5,
       r.BTL_BUFFER_POINTER + BTL_FULL_ADD6, r.BTL_BUFFER_POINTER + BTL_FULL_ADD7] }

/-- The outcome of the Data branch of `BTL_HexFlasher` for a record that passed
`BTL_CheckRecord`: the programming loop, then the cursor moves. -/
def dataOutcome (hal buf : Nat → Nat) (r : BTL_RecordTypeDef) (w : World) :
    Nat × BTL_RecordTypeDef × World :=
  let s := programLoop hal buf
    (BTL_OK, dataRecordOf buf r, (BTL_CheckRecord buf (dataRecordOf buf r) (dataWorld buf r w)).2)
  (s.1, { s.2.1 with BTL_BUFFER_POINTER := (r.BTL_BUFFER_POINTER + (s.2.1.BTL_CC * 2 + 11)) % 65536 },
   s.2.2)

/-- The 16-bit value of the four hex characters at `cursor + 8 .. cursor + 11`. -/
def highWordAt (buf : Nat → Nat) (cursor : Nat) : Nat :=
  BTL_ASCHIIToHex (rd buf (cursor + 8)) * 4096 + BTL_ASCHIIToHex (rd buf (cursor + 9)) * 256
    + BTL_ASCHIIToHex (rd buf (cursor + 10)) * 16 + BTL_ASCHIIToHex (rd buf (cursor + 11))

/-- The 16-bit address offset of the record at `cursor`: the hex characters at
`cursor + 2 .. cursor + 5`. -/
def offsetAt (buf : Nat → Nat) (cursor : Nat) : Nat :=
  BTL_ASCHIIToHex (rd buf (cursor + 2)) * 4096 + BTL_ASCHIIToHex (rd buf (cursor + 3)) * 256
    + BTL_ASCHIIToHex (rd buf (cursor + 4)) * 16 + BTL_ASCHIIToHex (rd buf (cursor + 5))

/-- The bytes over which the checksum of the record at `cursor` is computed: `cc + 4`
decoded bytes (count, two offset bytes, type, `cc` data bytes). -/
def checkBytes (buf : Nat → Nat) (cursor cc : Nat) : List Nat :=
  (List.range (cc + 4)).map fun k => hexByte buf (cursor + k * 2) (cursor + k * 2 + 1)

/-- The record block without its `BTL_DATA` field. -/
def dropData (r : BTL_RecordTypeDef) : BTL_RecordTypeDef := { r with BTL_DATA := 0 }

/-- The world without the flash-program log and the buffer-read log. -/
def dropLogs (w : World) : World := { w with programs := [], reads := [] }

/-- The `HAL_FLASH_Program` call that the programming loop issues for `bytesCounter`:
address and data byte. -/
def programCall (dataBuffer : Nat → Nat) (r : BTL_RecordTypeDef) (bytesCounter : Nat) :
    Nat × Nat :=
  ((r.BTL_ADD + BTL_BOOTLOADER_SIZE + bytesCounter) % 4294967296,
   hexByte dataBuffer (r.BTL_BUFFER_POINTER + BTL_DATA_0 + bytesCounter * 2)
     (r.BTL_BUFFER_POINTER + BTL_DATA_1 + bytesCounter * 2))

/-! ## Concrete inputs -/

/-- A world before the bootloader runs: flash locked, nothing logged. -/
def world0 : World :=
  { flashLocked := true, programs := [], reads := [], uartTx := [], uartRx := [],
    erases := 0, mallocs := 0, packets := [] }

/-- A zeroed record block. -/
def record0 : BTL_RecordTypeDef :=
  { BTL_CC := 0, BTL_ADD := 0, BTL_RECORD_TYPE := 0, BTL_DATA := 0, BTL_CHECKSUM := 0,
    BTL_RECORD_INDEX := 0, BTL_BUFFER_POINTER := 0, BTL_ADDRESS_HIGH := 0,
    BTL_NO_OF_BUFFER_RECORDS := 0 }

/-- A flash driver whose every byte-program call reports `HAL_OK`. -/
def halOk : Nat → Nat := fun _ => HAL_OK

/-- An End-Of-File record. -/
def eofText : String := "00000001FF\n"

/-- A Data record: four bytes DE AD BE EF at offset 0000, with its checksum C4. -/
def dataText : String := "04000000DEADBEEFC4\n"

/-- The Data record of `dataText` with the checksum replaced by 00. -/
def badChecksumText : String := "04000000DEADBEEF00\n"

/-- An ExtLinearAddr record naming the high word 0801. -/
def extText : String := "020000040801F1\n"

/-- An ExtLinearAddr record naming the high word 0801, then a Data record with the
bytes 01 02 03 04 at offset 0000. -/
def extThenDataText : String := "020000040801F1\n0400000001020304F2\n"

/-- A Data record: one byte AB at offset 8000, i.e. at the target 0x08008000. -/
def atAppBaseText : String := "01800000ABD4\n"

/-- A Data record: one byte AB at offset 7FFF, i.e. at the target 0x08007FFF. -/
def belowAppBaseText : String := "017FFF00ABD6\n"

/-- An environment in which every HAL call succeeds and `malloc` hands out a block. -/
def envOk : Env :=
  { uartTransmit := fun _ => HAL_OK, flashProgram := fun _ => HAL_OK,
    sectorError := 0xFFFFFFFF, malloc := fun _ => some record0 }

/-- The environment `envOk`, except that `malloc` returns `NULL`. -/
def envNoMemory : Env :=
  { uartTransmit := fun _ => HAL_OK, flashProgram := fun _ => HAL_OK,
    sectorError := 0xFFFFFFFF, malloc := fun _ => none }

/-- A first packet as it arrives at `messageBuffer[3]`: done flag 0x00, one record,
next size 0, and an End-Of-File record as body. -/
def lastPacket : Rx := { status := HAL_OK, bytes := [0x00, 1, 0, 0] ++ asciiBytes eofText }

/-- A first packet as it arrives at `messageBuffer[3]`: done flag 0x01, one record,
next size 11, and an End-Of-File record as body. -/
def morePacket : Rx := { status := HAL_OK, bytes := [0x01, 1, 0, 11] ++ asciiBytes eofText }

/-- A reception that ends with `HAL_ERROR` and delivers nothing. -/
def failedRx : Rx := { status := 1, bytes := [] }

/-! ## Concrete inputs for the record and session scenarios -/

/-- The Data record of scenario S3 as the specification writes it, with the checksum 9A. -/
def s3Text : String := "04000000DEADBEEF9A\n"

/-- A Data record without data bytes at offset 0000, with its checksum 00. -/
def zeroCountText : String := "0000000000\n"

/-- A Data record of sixteen bytes 00 .. 0F at offset 0000, with its checksum 78. -/
def sixteenText : String := "10000000000102030405060708090A0B0C0D0E0F78\n"

/-- A Data record of seventeen bytes 00 .. 10 at offset 0000, with its checksum 67. -/
def seventeenText : String := "11000000000102030405060708090A0B0C0D0E0F1067\n"

/-- A Data record, then an End-Of-File record, then a further Data record. -/
def dataEofDataText : String := "04000000DEADBEEFC4\n00000001FF\n0400000001020304F2\n"

/-- A flash driver whose first byte-program call reports `HAL_ERROR` and every later one
`HAL_OK`. -/
def halFirstFails : Nat → Nat := fun k => if k = 0 then 1 else HAL_OK

/-- The environment `envOk`, except that the erase leaves 0 in `SECTOR_ERROR`. -/
def envEraseFails : Env :=
  { uartTransmit := fun _ => HAL_OK, flashProgram := fun _ => HAL_OK,
    sectorError := 0, malloc := fun _ => some record0 }

/-- A first packet as it arrives at `messageBuffer[3]`: done flag 0x02, one record,
next size 11, and as body a Data record whose checksum does not match. -/
def failingPacket : Rx :=
  { status := HAL_OK, bytes := [0x02, 1, 0, 11] ++ asciiBytes badChecksumText }

/-- A further packet as it arrives at `messageBuffer[2]`: command byte, done flag 0x00,
one record, next size 0, and an End-Of-File record as body. -/
def followingPacket : Rx :=
  { status := HAL_OK, bytes := [BTL_APP_FLASH, 0x00, 1, 0, 0] ++ asciiBytes eofText }

/-- The record at the cursor `p` is a Data record that fails validation: its count is
above `BTL_MAX_CC` or its stated checksum differs from the computed one. -/
abbrev failsValidation (buf : Nat → Nat) (p : Nat) : Prop :=
  hexByte buf (p + 6) (p + 7) = BTL_DATA_RECORD_TYPE ∧
  ¬ (hexByte buf p (p + 1) ≤ BTL_MAX_CC ∧
     CalculateChecksum (checkBytes buf p (hexByte buf p (p + 1)))
       = hexByte buf (p + hexByte buf p (p + 1) * 2 + 8) (p + hexByte buf p (p + 1) * 2 + 9))

/-- A world in which the four bytes of the first Data record of `dataEofDataText` are on
the flash-program log. -/
def worldAfterData : World :=
  { world0 with
    programs := [(0x08008000, 0xDE), (0x08008001, 0xAD), (0x08008002, 0xBE), (0x08008003, 0xEF)] }

/-! ## Concrete inputs for the packet scenarios -/

/-- A last packet (done flag 0x00) that announces no record although its body holds an
End-Of-File record. -/
def noRecordsPacket : Rx :=
  { status := HAL_OK, bytes := [0x00, 0, 0, 0] ++ asciiBytes eofText }

/-- A Data record whose count field reads F4 instead of 04 (19 characters). -/
def wrongCountText : String := "F4000000DEADBEEFC4\n"

/-- The buffer indices in the given list that are not below `dataLength`. -/
def readsOutside (dataLength : Nat) (reads : List Nat) : List Nat :=
  reads.filter fun i => decide (dataLength ≤ i)

/-- A last packet announcing one record, whose body is the record with the wrong count
field. -/
def wrongCountPacket : Rx :=
  { status := HAL_OK, bytes := [0x00, 1, 0, 0] ++ asciiBytes wrongCountText }

/-! # Theorems -/

/-! ## Arithmetic helpers -/

theorem BTL_ASCHIIToHex_lt (c : Nat) : BTL_ASCHIIToHex c < 16 := by
  unfold BTL_ASCHIIToHex
  split_ifs <;> omega

theorem hexByte_lt (buf : Nat → Nat) (i j : Nat) : hexByte buf i j < 256 := by
  unfold hexByte
  omega

/-- Or-ing a value below `2 ^ k` onto a multiple of `2 ^ k` adds it. -/
theorem lor_eq_add (k a b : Nat) (ha : 2 ^ k ∣ a) (hb : b < 2 ^ k) : a ||| b = a + b := by
  obtain ⟨c, rfl⟩ := ha
  exact (Nat.mul_add_lt_is_or hb c).symm

/-- Four nibbles or-ed below a high word: the bit expression is the positional sum. -/
theorem lor_nibbles (h a b c d : Nat) (ha : a < 16) (hb : b < 16) (hc : c < 16) (hd : d < 16) :
    (h <<< 16) ||| (a <<< 12) ||| (b <<< 8) ||| (c <<< 4) ||| d
      = h * 65536 + a * 4096 + b * 256 + c * 16 + d := by
  simp only [Nat.shiftLeft_eq]
  norm_num
  rw [lor_eq_add 16 (h * 65536) (a * 4096) (by omega) (by omega),
    lor_eq_add 12 (h * 65536 + a * 4096) (b * 256) (by omega) (by omega),
    lor_eq_add 8 (h * 65536 + a * 4096 + b * 256) (c * 16) (by omega) (by omega),
    lor_eq_add 4 (h * 65536 + a * 4096 + b * 256 + c * 16) d (by omega) (by omega)]

/-- Four nibbles or-ed together: the bit expression is the positional sum. -/
theorem lor_nibbles_low (a b c d : Nat) (ha : a < 16) (hb : b < 16) (hc : c < 16)
    (hd : d < 16) :
    (a <<< 12) ||| (b <<< 8) ||| (c <<< 4) ||| d = a * 4096 + b * 256 + c * 16 + d := by
  have h := lor_nibbles 0 a b c d ha hb hc hd
  simpa using h

theorem highWordAt_lt (buf : Nat → Nat) (cursor : Nat) : highWordAt buf cursor < 65536 := by
  have h1 := BTL_ASCHIIToHex_lt (rd buf (cursor + 8))
  have h2 := BTL_ASCHIIToHex_lt (rd buf (cursor + 9))
  have h3 := BTL_ASCHIIToHex_lt (rd buf (cursor + 10))
  have h4 := BTL_ASCHIIToHex_lt (rd buf (cursor + 11))
  unfold highWordAt
  omega

theorem offsetAt_lt (buf : Nat → Nat) (cursor : Nat) : offsetAt buf cursor < 65536 := by
  have h1 := BTL_ASCHIIToHex_lt (rd buf (cursor + 2))
  have h2 := BTL_ASCHIIToHex_lt (rd buf (cursor + 3))
  have h3 := BTL_ASCHIIToHex_lt (rd buf (cursor + 4))
  have h4 := BTL_ASCHIIToHex_lt (rd buf (cursor + 5))
  unfold offsetAt
  omega

/-! ## `CalculateChecksum` -/

theorem checksumSum_foldl (data : List Nat) (acc : Nat) (hacc : acc < 65536) :
    data.foldl (fun sum b => (sum + b % 256) % 65536) acc < 65536 ∧
    data.foldl (fun sum b => (sum + b % 256) % 65536) acc % 256 = (acc + data.sum) % 256 := by
  induction data generalizing acc with
  | nil => simp [hacc]
  | cons b bs ih =>
    have h := ih ((acc + b % 256) % 65536) (by omega)
    simp only [List.foldl_cons, List.sum_cons]
    refine ⟨h.1, ?_⟩
    rw [h.2]
    omega

theorem checksumSum_lt (data : List Nat) : checksumSum data < 65536 :=
  (checksumSum_foldl data 0 (by omega)).1

theorem checksumSum_mod (data : List Nat) : checksumSum data % 256 = data.sum % 256 := by
  have h := (checksumSum_foldl data 0 (by omega)).2
  simpa [checksumSum] using h

theorem CalculateChecksum_eq (data : List Nat) :
    CalculateChecksum data = (256 - data.sum % 256) % 256 := by
  have h1 := checksumSum_lt data
  have h2 := checksumSum_mod data
  unfold CalculateChecksum
  omega

/-! ## Components of a triple -/

theorem fst3 {α β γ : Type} (a : α) (b : β) (c : γ) : (a, b, c).1 = a := rfl

theorem snd3 {α β γ : Type} (a : α) (b : β) (c : γ) : (a, b, c).2.1 = b := rfl

theorem thd3 {α β γ : Type} (a : α) (b : β) (c : γ) : (a, b, c).2.2 = c := rfl

/-! ## `BTL_CheckRecord` and the programming loop -/

theorem BTL_CheckRecord_world (buf : Nat → Nat) (r : BTL_RecordTypeDef) (w : World) :
    dropLogs (BTL_CheckRecord buf r w).2 = dropLogs w ∧
    (BTL_CheckRecord buf r w).2.programs = w.programs := by
  unfold BTL_CheckRecord
  split_ifs <;> simp [dropLogs]

theorem BTL_CheckRecord_ok_iff (buf : Nat → Nat) (r : BTL_RecordTypeDef) (w : World) :
    (BTL_CheckRecord buf r w).1 = BTL_OK ↔
      (BTL_MIN_ADDRESS ≤ r.BTL_ADD ∧ r.BTL_ADD ≤ BTL_MAX_ADDRESS ∧ r.BTL_CC ≤ BTL_MAX_CC ∧
        CalculateChecksum (checkBytes buf r.BTL_BUFFER_POINTER r.BTL_CC) = r.BTL_CHECKSUM) := by
  unfold BTL_CheckRecord
  split_ifs with h1
  · by_cases h2 : CalculateChecksum (CRC_Buffer buf r) = r.BTL_CHECKSUM
    · have h3 := h2
      simp only [CRC_Buffer] at h3
      simp [h2, checkBytes, h3, h1.1, h1.2.1, h1.2.2.2]
    · have h3 := h2
      simp only [CRC_Buffer] at h3
      simp [h2, checkBytes, h3]
  · simp only [Nat.zero_le, true_and] at h1
    simp only [one_ne_zero, false_iff]
    intro h
    exact h1 ⟨h.1, h.2.1, h.2.2.1⟩

theorem BTL_CheckRecord_status (buf : Nat → Nat) (r : BTL_RecordTypeDef) (w : World) :
    (BTL_CheckRecord buf r w).1 = BTL_OK ∨ (BTL_CheckRecord buf r w).1 = BTL_ERROR := by
  unfold BTL_CheckRecord
  split_ifs <;> simp [em]

theorem programByte_foldl (hal : Nat → Nat) (buf : Nat → Nat) (l : List Nat)
    (s : Nat × BTL_RecordTypeDef × World) :
    dropData (l.foldl (programByte hal buf) s).2.1 = dropData s.2.1 ∧
    dropLogs (l.foldl (programByte hal buf) s).2.2 = dropLogs s.2.2 ∧
    (l.foldl (programByte hal buf) s).2.2.programs
      = s.2.2.programs ++ l.map (programCall buf s.2.1) := by
  induction l generalizing s with
  | nil => simp
  | cons i l ih =>
    obtain ⟨h1, h2, h3⟩ := ih (programByte hal buf s i)
    simp only [List.foldl_cons, List.map_cons]
    refine ⟨h1.trans ?_, h2.trans ?_, ?_⟩
    · simp [programByte, dropData]
    · simp [programByte, dropLogs]
    · rw [h3]
      have e : programCall buf (programByte hal buf s i).2.1 = programCall buf s.2.1 := by
        funext k
        simp [programCall, programByte]
      rw [e]
      simp [programByte, programCall]

theorem programLoop_spec (hal : Nat → Nat) (buf : Nat → Nat) (st : Nat)
    (r : BTL_RecordTypeDef) (w : World) :
    dropData (programLoop hal buf (st, r, w)).2.1 = dropData r ∧
    dropLogs (programLoop hal buf (st, r, w)).2.2 = dropLogs w ∧
    (programLoop hal buf (st, r, w)).2.2.programs
      = w.programs ++ (List.range r.BTL_CC).map (programCall buf r) :=
  programByte_foldl hal buf (List.range r.BTL_CC) (st, r, w)

/-! ## `BTL_HexFlasher`, branch by branch -/

/-- The body of `BTL_HexFlasher` in terms of the named decoding steps. -/
theorem BTL_HexFlasher_eq (hal buf : Nat → Nat) (r : BTL_RecordTypeDef) (w : World) :
    BTL_HexFlasher hal buf r w =
      if hexByte buf (r.BTL_BUFFER_POINTER + BTL_RT_0) (r.BTL_BUFFER_POINTER + BTL_RT_1)
          = BTL_EOF_RECORD_TYPE then
        (BTL_OK, headerOf buf r, headerWorld buf r w)
      else if hexByte buf (r.BTL_BUFFER_POINTER + BTL_RT_0) (r.BTL_BUFFER_POINTER + BTL_RT_1)
          = BTL_DATA_RECORD_TYPE then
        if (BTL_CheckRecord buf (dataRecordOf buf r) (dataWorld buf r w)).1 = BTL_OK then
          dataOutcome hal buf r w
        else
          (BTL_ERROR, dataRecordOf buf r,
            (BTL_CheckRecord buf (dataRecordOf buf r) (dataWorld buf r w)).2)
      else if hexByte buf (r.BTL_BUFFER_POINTER + BTL_RT_0) (r.BTL_BUFFER_POINTER + BTL_RT_1)
          = BTL_EXT_LINEAR_ADDR_RECORD then
        (BTL_OK, extRecordOf buf r, extWorld buf r w)
      else if hexByte buf (r.BTL_BUFFER_POINTER + BTL_RT_0) (r.BTL_BUFFER_POINTER + BTL_RT_1)
          = BTL_START_LINEAR_ADDR_RECORD then
        (BTL_OK, startRecordOf buf r, startWorld buf r w)
      else
        (BTL_ERROR, headerOf buf r, headerWorld buf r w) := rfl

theorem dropData_fields {a b : BTL_RecordTypeDef} (h : dropData a = dropData b) :
    a.BTL_CC = b.BTL_CC ∧ a.BTL_ADD = b.BTL_ADD ∧ a.BTL_RECORD_TYPE = b.BTL_RECORD_TYPE ∧
    a.BTL_CHECKSUM = b.BTL_CHECKSUM ∧ a.BTL_RECORD_INDEX = b.BTL_RECORD_INDEX ∧
    a.BTL_BUFFER_POINTER = b.BTL_BUFFER_POINTER ∧ a.BTL_ADDRESS_HIGH = b.BTL_ADDRESS_HIGH ∧
    a.BTL_NO_OF_BUFFER_RECORDS = b.BTL_NO_OF_BUFFER_RECORDS := by
  simpa [dropData] using h

theorem dataRecordOf_ADD (buf : Nat → Nat) (r : BTL_RecordTypeDef) :
    (dataRecordOf buf r).BTL_ADD = 0x08000000 + offsetAt buf r.BTL_BUFFER_POINTER := by
  have h1 := BTL_ASCHIIToHex_lt (rd buf (r.BTL_BUFFER_POINTER + 2))
  have h2 := BTL_ASCHIIToHex_lt (rd buf (r.BTL_BUFFER_POINTER + 3))
  have h3 := BTL_ASCHIIToHex_lt (rd buf (r.BTL_BUFFER_POINTER + 4))
  have h4 := BTL_ASCHIIToHex_lt (rd buf (r.BTL_BUFFER_POINTER + 5))
  simp only [dataRecordOf, headerOf, offsetAt]
  rw [lor_nibbles 2048 _ _ _ _ h1 h2 h3 h4]
  omega

theorem dataOutcome_spec (hal buf : Nat → Nat) (r : BTL_RecordTypeDef) (w : World) :
    (dataOutcome hal buf r w).2.2.programs
      = w.programs ++ (List.range (dataRecordOf buf r).BTL_CC).map
          (programCall buf (dataRecordOf buf r)) ∧
    dropLogs (dataOutcome hal buf r w).2.2 = dropLogs w ∧
    dropData (dataOutcome hal buf r w).2.1
      = dropData { dataRecordOf buf r with
          BTL_BUFFER_POINTER :=
            (r.BTL_BUFFER_POINTER + ((dataRecordOf buf r).BTL_CC * 2 + 11)) % 65536 } := by
  obtain ⟨h1, h2, h3⟩ := programLoop_spec hal buf BTL_OK (dataRecordOf buf r)
    (BTL_CheckRecord buf (dataRecordOf buf r) (dataWorld buf r w)).2
  obtain ⟨c1, c2⟩ := BTL_CheckRecord_world buf (dataRecordOf buf r) (dataWorld buf r w)
  obtain ⟨f1, f2, f3, f4, f5, f6, f7, f8⟩ := dropData_fields h1
  have e1 : (dataOutcome hal buf r w).2.2 = (programLoop hal buf (BTL_OK, dataRecordOf buf r,
      (BTL_CheckRecord buf (dataRecordOf buf r) (dataWorld buf r w)).2)).2.2 := rfl
  have d1 : (dataWorld buf r w).programs = w.programs := rfl
  have d2 : dropLogs (dataWorld buf r w) = dropLogs w := rfl
  refine ⟨?_, ?_, ?_⟩
  · rw [e1, h3, c2, d1]
  · rw [e1, h2, c1, d2]
  · simp only [dataOutcome, dropData, BTL_RecordTypeDef.mk.injEq]
    simp only [f1, f2, f3, f4, f5, f7, f8]
    simp

theorem BTL_HexFlasher_eof (hal buf : Nat → Nat) (r : BTL_RecordTypeDef) (w : World)
    (h : hexByte buf (r.BTL_BUFFER_POINTER + BTL_RT_0) (r.BTL_BUFFER_POINTER + BTL_RT_1)
      = BTL_EOF_RECORD_TYPE) :
    BTL_HexFlasher hal buf r w = (BTL_OK, headerOf buf r, headerWorld buf r w) := by
  rw [BTL_HexFlasher_eq, if_pos h]

theorem BTL_HexFlasher_ext (hal buf : Nat → Nat) (r : BTL_RecordTypeDef) (w : World)
    (h : hexByte buf (r.BTL_BUFFER_POINTER + BTL_RT_0) (r.BTL_BUFFER_POINTER + BTL_RT_1)
      = BTL_EXT_LINEAR_ADDR_RECORD) :
    BTL_HexFlasher hal buf r w = (BTL_OK, extRecordOf buf r, extWorld buf r w) := by
  have h1 : ¬ hexByte buf (r.BTL_BUFFER_POINTER + BTL_RT_0) (r.BTL_BUFFER_POINTER + BTL_RT_1)
      = BTL_EOF_RECORD_TYPE := by rw [h]; decide
  have h2 : ¬ hexByte buf (r.BTL_BUFFER_POINTER + BTL_RT_0) (r.BTL_BUFFER_POINTER + BTL_RT_1)
      = BTL_DATA_RECORD_TYPE := by rw [h]; decide
  rw [BTL_HexFlasher_eq, if_neg h1, if_neg h2, if_pos h]

theorem BTL_HexFlasher_frame (hal buf : Nat → Nat) (r : BTL_RecordTypeDef) (w : World) :
    (BTL_HexFlasher hal buf r w).2.1.BTL_RECORD_INDEX = r.BTL_RECORD_INDEX ∧
    (BTL_HexFlasher hal buf r w).2.1.BTL_NO_OF_BUFFER_RECORDS = r.BTL_NO_OF_BUFFER_RECORDS ∧
    dropLogs (BTL_HexFlasher hal buf r w).2.2 = dropLogs w := by
  rw [BTL_HexFlasher_eq]
  split_ifs
  · simp [headerOf, headerWorld, dropLogs]
  · obtain ⟨-, h2, h3⟩ := dataOutcome_spec hal buf r w
    obtain ⟨-, -, -, -, f5, -, -, f8⟩ := dropData_fields h3
    exact ⟨by simpa [dataRecordOf, headerOf] using f5, by simpa [dataRecordOf, headerOf] using f8, h2⟩
  · obtain ⟨c1, -⟩ := BTL_CheckRecord_world buf (dataRecordOf buf r) (dataWorld buf r w)
    have d2 : dropLogs (dataWorld buf r w) = dropLogs w := rfl
    rw [d2] at c1
    rw [snd3, thd3]
    exact ⟨rfl, rfl, c1⟩
  · simp [extRecordOf, extWorld, headerOf, headerWorld, dropLogs]
  · simp [startRecordOf, startWorld, headerOf, headerWorld, dropLogs]
  · simp [headerOf, headerWorld, dropLogs]

/-- What one call of `BTL_HexFlasher` adds to the flash-program log: nothing, or (for a
Data record that passed `BTL_CheckRecord`) one call per data byte. -/
theorem BTL_HexFlasher_programs (hal buf : Nat → Nat) (r : BTL_RecordTypeDef) (w : World) :
    (BTL_HexFlasher hal buf r w).2.2.programs = w.programs ∨
    (hexByte buf (r.BTL_BUFFER_POINTER + BTL_RT_0) (r.BTL_BUFFER_POINTER + BTL_RT_1)
        = BTL_DATA_RECORD_TYPE ∧
      (BTL_CheckRecord buf (dataRecordOf buf r) (dataWorld buf r w)).1 = BTL_OK ∧
      (BTL_HexFlasher hal buf r w).2.2.programs
        = w.programs ++ (List.range (dataRecordOf buf r).BTL_CC).map
            (programCall buf (dataRecordOf buf r))) := by
  rw [BTL_HexFlasher_eq]
  split_ifs with h1 h2 h3 h4 h5
  · left; simp [headerWorld]
  · right; exact ⟨h2, h3, (dataOutcome_spec hal buf r w).1⟩
  · left
    obtain ⟨-, c2⟩ := BTL_CheckRecord_world buf (dataRecordOf buf r) (dataWorld buf r w)
    have d1 : (dataWorld buf r w).programs = w.programs := rfl
    rw [d1] at c2
    rw [thd3]
    exact c2
  · left; simp [extWorld, headerWorld]
  · left; simp [startWorld, headerWorld]
  · left; simp [headerWorld]

/-- Every address that one call of `BTL_HexFlasher` programs lies in the application
region. -/
theorem BTL_HexFlasher_addresses (hal buf : Nat → Nat) (r : BTL_RecordTypeDef) (w : World) :
    ∃ new, (BTL_HexFlasher hal buf r w).2.2.programs = w.programs ++ new ∧
      ∀ x ∈ new, APP_BASE ≤ x.1 ∧ x.1 ≤ APP_MAX := by
  rcases BTL_HexFlasher_programs hal buf r w with h | ⟨-, hv, h⟩
  · exact ⟨[], by simp [h], by simp⟩
  · refine ⟨_, h, ?_⟩
    intro x hx
    obtain ⟨i, hi, rfl⟩ := List.mem_map.1 hx
    have hi2 := List.mem_range.1 hi
    have hcc := ((BTL_CheckRecord_ok_iff buf _ _).1 hv).2.2.1
    have hadd := dataRecordOf_ADD buf r
    have hoff := offsetAt_lt buf r.BTL_BUFFER_POINTER
    simp only [BTL_MAX_CC] at hcc
    simp only [programCall, hadd, APP_BASE, APP_MAX, BTL_BOOTLOADER_SIZE]
    omega

theorem BTL_FlashWrite_loop_addresses (hal buf : Nat → Nat) (fuel : Nat) :
    ∀ (FlashFailure BTL_STATUS : Nat) (r : BTL_RecordTypeDef) (w : World)
      (res : Nat × BTL_RecordTypeDef × World),
      BTL_FlashWrite_loop hal buf fuel FlashFailure BTL_STATUS r w = some res →
      ∃ new, res.2.2.programs = w.programs ++ new ∧
        ∀ x ∈ new, APP_BASE ≤ x.1 ∧ x.1 ≤ APP_MAX := by
  induction fuel with
  | zero =>
    intro ff st r w res h
    unfold BTL_FlashWrite_loop at h
    by_cases hc : r.BTL_RECORD_INDEX < r.BTL_NO_OF_BUFFER_RECORDS
    · simp [hc] at h
    · simp only [hc, if_false, Option.some.injEq] at h
      subst h
      exact ⟨[], by simp, by simp⟩
  | succ fuel ih =>
    intro ff st r w res h
    unfold BTL_FlashWrite_loop at h
    obtain ⟨new1, e1, b1⟩ := BTL_HexFlasher_addresses hal buf r w
    by_cases hc : r.BTL_RECORD_INDEX < r.BTL_NO_OF_BUFFER_RECORDS
    · simp only [hc, if_true] at h
      generalize BTL_HexFlasher hal buf r w = H at h e1
      split_ifs at h with hok hto hto
      · simp only [Option.some.injEq] at h
        subst h
        exact ⟨new1, e1, b1⟩
      · obtain ⟨new2, e2, b2⟩ := ih _ _ _ _ _ h
        refine ⟨new1 ++ new2, ?_, ?_⟩
        · rw [e2, e1, List.append_assoc]
        · intro x hx
          rcases List.mem_append.1 hx with hx | hx
          · exact b1 x hx
          · exact b2 x hx
      · simp only [Option.some.injEq] at h
        subst h
        exact ⟨new1, e1, b1⟩
      · obtain ⟨new2, e2, b2⟩ := ih _ _ _ _ _ h
        refine ⟨new1 ++ new2, ?_, ?_⟩
        · rw [e2, e1, List.append_assoc]
        · intro x hx
          rcases List.mem_append.1 hx with hx | hx
          · exact b1 x hx
          · exact b2 x hx
    · simp only [hc, if_false, Option.some.injEq] at h
      subst h
      exact ⟨[], by simp, by simp⟩

/-- The loop of `BTL_FlashWrite` returns as soon as the fuel covers the records still to
be consumed plus the failures still allowed. -/
theorem BTL_FlashWrite_loop_returns (hal buf : Nat → Nat) (fuel : Nat) :
    ∀ (FlashFailure BTL_STATUS : Nat) (r : BTL_RecordTypeDef) (w : World),
      r.BTL_NO_OF_BUFFER_RECORDS < 65536 → FlashFailure < MAX_TIMEOUT →
      (r.BTL_NO_OF_BUFFER_RECORDS - r.BTL_RECORD_INDEX) + (4 - FlashFailure) ≤ fuel →
      ∃ res, BTL_FlashWrite_loop hal buf fuel FlashFailure BTL_STATUS r w = some res := by
  induction fuel with
  | zero =>
    intro ff st r w hn hf hm
    unfold BTL_FlashWrite_loop
    by_cases hc : r.BTL_RECORD_INDEX < r.BTL_NO_OF_BUFFER_RECORDS
    · omega
    · simp only [hc, if_false]
      exact ⟨_, rfl⟩
  | succ fuel ih =>
    intro ff st r w hn hf hm
    unfold BTL_FlashWrite_loop
    obtain ⟨f1, f2, -⟩ := BTL_HexFlasher_frame hal buf r w
    by_cases hc : r.BTL_RECORD_INDEX < r.BTL_NO_OF_BUFFER_RECORDS
    · simp only [hc, if_true]
      generalize BTL_HexFlasher hal buf r w = H at f1 f2
      simp only [MAX_TIMEOUT] at hf ⊢
      by_cases hok : H.1 = BTL_OK
      · simp only [hok, if_true]
        have hto : ¬ 5 ≤ ff := by omega
        simp only [hto, if_false]
        apply ih
        · simpa [f2] using hn
        · exact hf
        · simp only [f1, f2]
          omega
      · simp only [hok, if_false]
        by_cases hto : 5 ≤ (ff + 1) % 256
        · simp only [hto, if_true]
          exact ⟨_, rfl⟩
        · simp only [hto, if_false]
          apply ih
          · simpa [f2] using hn
          · simp only [MAX_TIMEOUT]; omega
          · simp only [f1, f2]
            omega
    · simp only [hc, if_false]
      exact ⟨_, rfl⟩

theorem BTL_FlashWrite_returns (hal buf : Nat → Nat) (dataLength : Nat)
    (r : BTL_RecordTypeDef) (w : World) (hn : r.BTL_NO_OF_BUFFER_RECORDS < 256) :
    ∃ res, BTL_FlashWrite hal buf dataLength r w = some res := by
  unfold BTL_FlashWrite
  apply BTL_FlashWrite_loop_returns
  · simp only; omega
  · simp
  · simp only [MAX_TIMEOUT]; omega

theorem dropLogs_packets {a b : World} (h : dropLogs a = dropLogs b) :
    a.flashLocked = b.flashLocked ∧ a.uartTx = b.uartTx ∧ a.uartRx = b.uartRx ∧
    a.erases = b.erases ∧ a.mallocs = b.mallocs ∧ a.packets = b.packets := by
  simpa [dropLogs] using h

theorem BTL_FlashWrite_loop_frame (hal buf : Nat → Nat) (fuel : Nat) :
    ∀ (FlashFailure BTL_STATUS : Nat) (r : BTL_RecordTypeDef) (w : World)
      (res : Nat × BTL_RecordTypeDef × World),
      BTL_FlashWrite_loop hal buf fuel FlashFailure BTL_STATUS r w = some res →
      dropLogs res.2.2 = dropLogs w := by
  induction fuel with
  | zero =>
    intro ff st r w res h
    unfold BTL_FlashWrite_loop at h
    by_cases hc : r.BTL_RECORD_INDEX < r.BTL_NO_OF_BUFFER_RECORDS
    · simp [hc] at h
    · simp only [hc, if_false, Option.some.injEq] at h
      subst h
      rfl
  | succ fuel ih =>
    intro ff st r w res h
    unfold BTL_FlashWrite_loop at h
    obtain ⟨-, -, e1⟩ := BTL_HexFlasher_frame hal buf r w
    by_cases hc : r.BTL_RECORD_INDEX < r.BTL_NO_OF_BUFFER_RECORDS
    · simp only [hc, if_true] at h
      generalize BTL_HexFlasher hal buf r w = H at h e1
      split_ifs at h with hok hto hto
      · simp only [Option.some.injEq] at h
        subst h
        exact e1
      · exact (ih _ _ _ _ _ h).trans e1
      · simp only [Option.some.injEq] at h
        subst h
        exact e1
      · exact (ih _ _ _ _ _ h).trans e1
    · simp only [hc, if_false, Option.some.injEq] at h
      subst h
      rfl

/-! ## The claims -/

/-- C1. For every packet body, every record count (a `uint8_t`) and every sequence of
flash-driver results, `BTL_FlashWrite` returns, and each address it hands to
`HAL_FLASH_Program` (through `BTL_HexFlasher`) satisfies
`APP_BASE ≤ addr ≤ APP_MAX`, i.e. `0x08008000 ≤ addr ≤ 0x0805FFFF`. -/
theorem BTL_FlashWrite_addresses_in_app_region (hal buf : Nat → Nat) (dataLength : Nat)
    (r : BTL_RecordTypeDef) (w : World) (hn : r.BTL_NO_OF_BUFFER_RECORDS < 256) :
    ∃ res new, BTL_FlashWrite hal buf dataLength r w = some res ∧
      res.2.2.programs = w.programs ++ new ∧
      ∀ x ∈ new, 0x08008000 ≤ x.1 ∧ x.1 ≤ 0x0805FFFF := by
  obtain ⟨res, hres⟩ := BTL_FlashWrite_returns hal buf dataLength r w hn
  obtain ⟨new, h1, h2⟩ := BTL_FlashWrite_loop_addresses hal buf _ _ _ _ _ _ hres
  exact ⟨res, new, hres, h1, h2⟩

/-- Witness of C1: the theorem at a packet of two records (ExtLinearAddr, then Data). -/
theorem BTL_FlashWrite_addresses_in_app_region_witness :
    ∃ res new,
      BTL_FlashWrite halOk (bufOfList (asciiBytes extThenDataText)) 34
        { record0 with BTL_NO_OF_BUFFER_RECORDS := 2 } world0 = some res ∧
      res.2.2.programs = world0.programs ++ new ∧
      ∀ x ∈ new, 0x08008000 ≤ x.1 ∧ x.1 ≤ 0x0805FFFF :=
  BTL_FlashWrite_addresses_in_app_region halOk (bufOfList (asciiBytes extThenDataText)) 34
    { record0 with BTL_NO_OF_BUFFER_RECORDS := 2 } world0 (by decide)

/-- C2. When `BTL_HexFlasher` decodes a Data record (type 0x00) whose stated checksum
(the hex pair at cursor + CC*2 + 8) differs from `CalculateChecksum` over the CC + 4
decoded bytes, it returns `BTL_ERROR`, makes no `HAL_FLASH_Program` call and leaves
`BTL_BUFFER_POINTER` unchanged; and whenever a call programs a byte, the record is a Data
record whose computed checksum equals the stated one. -/
theorem BTL_HexFlasher_checksum_mismatch (hal buf : Nat → Nat) (r : BTL_RecordTypeDef)
    (w : World) :
    (hexByte buf (r.BTL_BUFFER_POINTER + 6) (r.BTL_BUFFER_POINTER + 7) = BTL_DATA_RECORD_TYPE →
      hexByte buf
          (r.BTL_BUFFER_POINTER + hexByte buf r.BTL_BUFFER_POINTER (r.BTL_BUFFER_POINTER + 1) * 2 + 8)
          (r.BTL_BUFFER_POINTER + hexByte buf r.BTL_BUFFER_POINTER (r.BTL_BUFFER_POINTER + 1) * 2 + 9)
        ≠ CalculateChecksum (checkBytes buf r.BTL_BUFFER_POINTER
            (hexByte buf r.BTL_BUFFER_POINTER (r.BTL_BUFFER_POINTER + 1))) →
      (BTL_HexFlasher hal buf r w).1 = BTL_ERROR ∧
      (BTL_HexFlasher hal buf r w).2.2.programs = w.programs ∧
      (BTL_HexFlasher hal buf r w).2.1.BTL_BUFFER_POINTER = r.BTL_BUFFER_POINTER) ∧
    ((BTL_HexFlasher hal buf r w).2.2.programs ≠ w.programs →
      hexByte buf (r.BTL_BUFFER_POINTER + 6) (r.BTL_BUFFER_POINTER + 7) = BTL_DATA_RECORD_TYPE ∧
      CalculateChecksum (checkBytes buf r.BTL_BUFFER_POINTER
          (hexByte buf r.BTL_BUFFER_POINTER (r.BTL_BUFFER_POINTER + 1)))
        = hexByte buf
          (r.BTL_BUFFER_POINTER + hexByte buf r.BTL_BUFFER_POINTER (r.BTL_BUFFER_POINTER + 1) * 2 + 8)
          (r.BTL_BUFFER_POINTER + hexByte buf r.BTL_BUFFER_POINTER (r.BTL_BUFFER_POINTER + 1) * 2 + 9)) := by
  constructor
  · intro ht hc
    have hv : (BTL_CheckRecord buf (dataRecordOf buf r) (dataWorld buf r w)).1 ≠ BTL_OK := by
      intro hok
      exact hc ((BTL_CheckRecord_ok_iff buf _ _).1 hok).2.2.2.symm
    have h1 : ¬ hexByte buf (r.BTL_BUFFER_POINTER + BTL_RT_0) (r.BTL_BUFFER_POINTER + BTL_RT_1)
        = BTL_EOF_RECORD_TYPE := by
      intro h
      rw [ht] at h
      exact absurd h (by decide)
    obtain ⟨-, c2⟩ := BTL_CheckRecord_world buf (dataRecordOf buf r) (dataWorld buf r w)
    rw [BTL_HexFlasher_eq, if_neg h1, if_pos ht, if_neg hv, fst3, snd3, thd3]
    exact ⟨rfl, c2, rfl⟩
  · intro hp
    rcases BTL_HexFlasher_programs hal buf r w with h | ⟨ht, hv, -⟩
    · exact absurd h hp
    · exact ⟨ht, ((BTL_CheckRecord_ok_iff buf _ _).1 hv).2.2.2⟩

/-- Witness of C2: the first part at the Data record whose checksum C4 is replaced by 00,
the second part at the Data record with its checksum C4. -/
theorem BTL_HexFlasher_checksum_mismatch_witness :
    ((BTL_HexFlasher halOk (bufOfList (asciiBytes badChecksumText)) record0 world0).1
        = BTL_ERROR ∧
      (BTL_HexFlasher halOk (bufOfList (asciiBytes badChecksumText)) record0 world0).2.2.programs
        = world0.programs ∧
      (BTL_HexFlasher halOk (bufOfList (asciiBytes badChecksumText)) record0
        world0).2.1.BTL_BUFFER_POINTER = record0.BTL_BUFFER_POINTER) ∧
    (hexByte (bufOfList (asciiBytes dataText)) (record0.BTL_BUFFER_POINTER + 6)
        (record0.BTL_BUFFER_POINTER + 7) = BTL_DATA_RECORD_TYPE ∧
      CalculateChecksum (checkBytes (bufOfList (asciiBytes dataText)) record0.BTL_BUFFER_POINTER
          (hexByte (bufOfList (asciiBytes dataText)) record0.BTL_BUFFER_POINTER
            (record0.BTL_BUFFER_POINTER + 1)))
        = hexByte (bufOfList (asciiBytes dataText))
          (record0.BTL_BUFFER_POINTER + hexByte (bufOfList (asciiBytes dataText))
            record0.BTL_BUFFER_POINTER (record0.BTL_BUFFER_POINTER + 1) * 2 + 8)
          (record0.BTL_BUFFER_POINTER + hexByte (bufOfList (asciiBytes dataText))
            record0.BTL_BUFFER_POINTER (record0.BTL_BUFFER_POINTER + 1) * 2 + 9)) :=
  ⟨(BTL_HexFlasher_checksum_mismatch halOk (bufOfList (asciiBytes badChecksumText)) record0
      world0).1 (by decide) (by decide),
   (BTL_HexFlasher_checksum_mismatch halOk (bufOfList (asciiBytes dataText)) record0
      world0).2 (by decide)⟩

/-- C5. For every byte sequence of any length, `CalculateChecksum` returns
`(~sum_u8 + 1) & 0xFF`, i.e. `(256 - (sum of the bytes mod 256)) mod 256`, although the
accumulator is only 16 bits wide. -/
theorem CalculateChecksum_twos_complement (bytes : List Nat) :
    CalculateChecksum bytes = (256 - bytes.sum % 256) % 256 ∧
    CalculateChecksum bytes = ((255 - bytes.sum % 256) + 1) &&& 0xFF := by
  have h := CalculateChecksum_eq bytes
  refine ⟨h, ?_⟩
  have e : (0xFF : Nat) = 2 ^ 8 - 1 := by norm_num
  rw [e, Nat.and_pow_two_sub_one_eq_mod, h]
  omega

/-- C6. For every byte sequence, the checksum of the sequence followed by its own
checksum is 0. -/
theorem CalculateChecksum_append_self (bytes : List Nat) :
    CalculateChecksum (bytes ++ [CalculateChecksum bytes]) = 0 := by
  rw [CalculateChecksum_eq (bytes ++ [CalculateChecksum bytes]), CalculateChecksum_eq bytes]
  simp only [List.sum_append, List.sum_cons, List.sum_nil]
  omega

/-- C7, as stated, fails: on an End-Of-File record `BTL_HexFlasher` returns `BTL_OK`
and `BTL_BUFFER_POINTER` stays where it was, which is not its old value plus
`BTL_CC * 2 + 11`. -/
theorem BTL_HexFlasher_eof_cursor_stays :
    (BTL_HexFlasher halOk (bufOfList (asciiBytes eofText)) record0 world0).1 = BTL_OK ∧
    (BTL_HexFlasher halOk (bufOfList (asciiBytes eofText)) record0 world0).2.1.BTL_BUFFER_POINTER
      = 0 ∧
    (record0.BTL_BUFFER_POINTER
      + ((BTL_HexFlasher halOk (bufOfList (asciiBytes eofText)) record0 world0).2.1.BTL_CC * 2
          + 11)) % 65536 = 11 := by
  decide

/-- C7, amended. A call of `BTL_HexFlasher` that returns `BTL_OK` on a record other than
End-Of-File (Data, ExtLinearAddr or StartLinearAddr) leaves `BTL_BUFFER_POINTER` at its
old value plus `BTL_CC * 2 + 11` (as a 16-bit value); on an End-Of-File record the call
returns `BTL_OK` and leaves `BTL_BUFFER_POINTER` unchanged. -/
theorem BTL_HexFlasher_cursor (hal buf : Nat → Nat) (r : BTL_RecordTypeDef) (w : World) :
    ((BTL_HexFlasher hal buf r w).1 = BTL_OK →
      hexByte buf (r.BTL_BUFFER_POINTER + 6) (r.BTL_BUFFER_POINTER + 7) ≠ BTL_EOF_RECORD_TYPE →
      (BTL_HexFlasher hal buf r w).2.1.BTL_CC
        = hexByte buf r.BTL_BUFFER_POINTER (r.BTL_BUFFER_POINTER + 1) ∧
      (BTL_HexFlasher hal buf r w).2.1.BTL_BUFFER_POINTER
        = (r.BTL_BUFFER_POINTER + ((BTL_HexFlasher hal buf r w).2.1.BTL_CC * 2 + 11)) % 65536) ∧
    (hexByte buf (r.BTL_BUFFER_POINTER + 6) (r.BTL_BUFFER_POINTER + 7) = BTL_EOF_RECORD_TYPE →
      (BTL_HexFlasher hal buf r w).1 = BTL_OK ∧
      (BTL_HexFlasher hal buf r w).2.1.BTL_BUFFER_POINTER = r.BTL_BUFFER_POINTER) := by
  constructor
  · intro hok hne
    rw [BTL_HexFlasher_eq] at hok ⊢
    rw [if_neg hne] at hok ⊢
    split_ifs at hok ⊢ with h2 h3 h4 h5
    · obtain ⟨-, -, h⟩ := dataOutcome_spec hal buf r w
      obtain ⟨f1, -, -, -, -, f6, -, -⟩ := dropData_fields h
      rw [f1, f6]
      exact ⟨rfl, rfl⟩
    · exact ⟨rfl, rfl⟩
    · exact ⟨rfl, rfl⟩
  · intro he
    rw [BTL_HexFlasher_eof hal buf r w he]
    exact ⟨rfl, rfl⟩

/-- Witness of C7 (amended): an ExtLinearAddr record moves the cursor from 0 to 15, an
End-Of-File record leaves it at 0. -/
theorem BTL_HexFlasher_cursor_witness :
    ((BTL_HexFlasher halOk (bufOfList (asciiBytes extText)) record0 world0).2.1.BTL_CC
        = hexByte (bufOfList (asciiBytes extText)) record0.BTL_BUFFER_POINTER
            (record0.BTL_BUFFER_POINTER + 1) ∧
      (BTL_HexFlasher halOk (bufOfList (asciiBytes extText)) record0 world0).2.1.BTL_BUFFER_POINTER
        = (record0.BTL_BUFFER_POINTER
            + ((BTL_HexFlasher halOk (bufOfList (asciiBytes extText)) record0 world0).2.1.BTL_CC * 2
                + 11)) % 65536) ∧
    ((BTL_HexFlasher halOk (bufOfList (asciiBytes eofText)) record0 world0).1 = BTL_OK ∧
      (BTL_HexFlasher halOk (bufOfList (asciiBytes eofText)) record0 world0).2.1.BTL_BUFFER_POINTER
        = record0.BTL_BUFFER_POINTER) :=
  ⟨(BTL_HexFlasher_cursor halOk (bufOfList (asciiBytes extText)) record0 world0).1
      (by decide) (by decide),
   (BTL_HexFlasher_cursor halOk (bufOfList (asciiBytes eofText)) record0 world0).2 (by decide)⟩

/-- C8, as stated, fails: the Data record at the target 0x08007FFF = APP_BASE - 1 (one
byte AB, matching checksum) passes `BTL_CheckRecord`, and `BTL_HexFlasher` programs its
byte (at 0x0800FFFF). -/
theorem BTL_CheckRecord_accepts_below_app_base :
    (dataRecordOf (bufOfList (asciiBytes belowAppBaseText)) record0).BTL_ADD = APP_BASE - 1 ∧
    (BTL_CheckRecord (bufOfList (asciiBytes belowAppBaseText))
      (dataRecordOf (bufOfList (asciiBytes belowAppBaseText)) record0) world0).1 = BTL_OK ∧
    (BTL_HexFlasher halOk (bufOfList (asciiBytes belowAppBaseText)) record0 world0).1 = BTL_OK ∧
    (BTL_HexFlasher halOk (bufOfList (asciiBytes belowAppBaseText)) record0 world0).2.2.programs
      = [(0x0800FFFF, 0xAB)] := by
  decide

/-- C8, amended. The lower bound that `BTL_CheckRecord` enforces is
`BTL_MIN_ADDRESS = 0x08000000`: a Data record with byte count in range and matching
checksum is accepted when its target address is `APP_BASE = 0x08008000`, is accepted as
well when it is `APP_BASE - 1 = 0x08007FFF`, and is rejected when it is
`BTL_MIN_ADDRESS - 1 = 0x07FFFFFF`. -/
theorem BTL_CheckRecord_lower_bound (buf : Nat → Nat) (r : BTL_RecordTypeDef) (w : World)
    (hcc : r.BTL_CC ≤ BTL_MAX_CC)
    (hsum : CalculateChecksum (checkBytes buf r.BTL_BUFFER_POINTER r.BTL_CC) = r.BTL_CHECKSUM) :
    (r.BTL_ADD = APP_BASE → (BTL_CheckRecord buf r w).1 = BTL_OK) ∧
    (r.BTL_ADD = APP_BASE - 1 → (BTL_CheckRecord buf r w).1 = BTL_OK) ∧
    (r.BTL_ADD = BTL_MIN_ADDRESS - 1 → (BTL_CheckRecord buf r w).1 = BTL_ERROR) := by
  refine ⟨?_, ?_, ?_⟩
  · intro ha
    rw [BTL_CheckRecord_ok_iff, ha]
    exact ⟨by decide, by decide, hcc, hsum⟩
  · intro ha
    rw [BTL_CheckRecord_ok_iff, ha]
    exact ⟨by decide, by decide, hcc, hsum⟩
  · intro ha
    have hno : ¬ (BTL_CheckRecord buf r w).1 = BTL_OK := by
      rw [BTL_CheckRecord_ok_iff, ha]
      intro h
      exact absurd h.1 (by decide)
    have h01 := BTL_CheckRecord_status buf r w
    rcases h01 with h | h
    · exact absurd h hno
    · exact h

/-- Witness of C8 (amended): the records at 0x08008000 and at 0x08007FFF, and the latter
with its address replaced by 0x07FFFFFF. -/
theorem BTL_CheckRecord_lower_bound_witness :
    (BTL_CheckRecord (bufOfList (asciiBytes atAppBaseText))
      (dataRecordOf (bufOfList (asciiBytes atAppBaseText)) record0) world0).1 = BTL_OK ∧
    (BTL_CheckRecord (bufOfList (asciiBytes belowAppBaseText))
      (dataRecordOf (bufOfList (asciiBytes belowAppBaseText)) record0) world0).1 = BTL_OK ∧
    (BTL_CheckRecord (bufOfList (asciiBytes belowAppBaseText))
      { dataRecordOf (bufOfList (asciiBytes belowAppBaseText)) record0 with
        BTL_ADD := 0x07FFFFFF } world0).1 = BTL_ERROR :=
  ⟨(BTL_CheckRecord_lower_bound (bufOfList (asciiBytes atAppBaseText))
      (dataRecordOf (bufOfList (asciiBytes atAppBaseText)) record0) world0
      (by decide) (by decide)).1 (by decide),
   (BTL_CheckRecord_lower_bound (bufOfList (asciiBytes belowAppBaseText))
      (dataRecordOf (bufOfList (asciiBytes belowAppBaseText)) record0) world0
      (by decide) (by decide)).2.1 (by decide),
   (BTL_CheckRecord_lower_bound (bufOfList (asciiBytes belowAppBaseText))
      { dataRecordOf (bufOfList (asciiBytes belowAppBaseText)) record0 with
        BTL_ADD := 0x07FFFFFF } world0
      (by decide) (by decide)).2.2 (by decide)⟩

/-- C9, the code at the failing input: the ExtLinearAddr record sets `BTL_ADDRESS_HIGH`
to 0x0801, yet `BTL_FlashWrite` over that record followed by a Data record at offset
0000 composes the target 0x08000000 (not 0x08010000) and programs the four bytes from
0x08008000 on. -/
theorem BTL_FlashWrite_ext_linear_is_lost :
    (BTL_HexFlasher halOk (bufOfList (asciiBytes extThenDataText)) record0
      world0).2.1.BTL_ADDRESS_HIGH = 0x0801 ∧
    (BTL_FlashWrite halOk (bufOfList (asciiBytes extThenDataText)) 34
        { record0 with BTL_NO_OF_BUFFER_RECORDS := 2 } world0).map
        (fun res => (res.1, res.2.1.BTL_RECORD_INDEX, res.2.1.BTL_ADD, res.2.2.programs))
      = some (BTL_OK, 2, 0x08000000,
          [(0x08008000, 1), (0x08008001, 2), (0x08008002, 3), (0x08008003, 4)]) := by
  decide

/-- C10. Every call of `BTL_HexFlasher` on an ExtLinearAddr record (type 0x04) returns
`BTL_OK`, makes no `HAL_FLASH_Program` call, and leaves in `BTL_ADDRESS_HIGH` the 16-bit
value of the four hex characters at cursor + 8 .. cursor + 11. -/
theorem BTL_HexFlasher_ext_linear (hal buf : Nat → Nat) (r : BTL_RecordTypeDef) (w : World)
    (ht : hexByte buf (r.BTL_BUFFER_POINTER + 6) (r.BTL_BUFFER_POINTER + 7)
      = BTL_EXT_LINEAR_ADDR_RECORD) :
    (BTL_HexFlasher hal buf r w).1 = BTL_OK ∧
    (BTL_HexFlasher hal buf r w).2.2.programs = w.programs ∧
    (BTL_HexFlasher hal buf r w).2.1.BTL_ADDRESS_HIGH = highWordAt buf r.BTL_BUFFER_POINTER := by
  rw [BTL_HexFlasher_ext hal buf r w ht]
  refine ⟨rfl, rfl, ?_⟩
  have h1 := BTL_ASCHIIToHex_lt (rd buf (r.BTL_BUFFER_POINTER + 8))
  have h2 := BTL_ASCHIIToHex_lt (rd buf (r.BTL_BUFFER_POINTER + 9))
  have h3 := BTL_ASCHIIToHex_lt (rd buf (r.BTL_BUFFER_POINTER + 10))
  have h4 := BTL_ASCHIIToHex_lt (rd buf (r.BTL_BUFFER_POINTER + 11))
  have e : (extRecordOf buf r).BTL_ADDRESS_HIGH
      = ((BTL_ASCHIIToHex (rd buf (r.BTL_BUFFER_POINTER + 8)) <<< 12) |||
         (BTL_ASCHIIToHex (rd buf (r.BTL_BUFFER_POINTER + 9)) <<< 8) |||
         (BTL_ASCHIIToHex (rd buf (r.BTL_BUFFER_POINTER + 10)) <<< 4) |||
         BTL_ASCHIIToHex (rd buf (r.BTL_BUFFER_POINTER + 11))) % 65536 := rfl
  rw [snd3, e, lor_nibbles_low _ _ _ _ h1 h2 h3 h4]
  unfold highWordAt
  omega

/-- Witness of C10: the ExtLinearAddr record naming 0801. -/
theorem BTL_HexFlasher_ext_linear_witness :
    (BTL_HexFlasher halOk (bufOfList (asciiBytes extText)) record0 world0).1 = BTL_OK ∧
    (BTL_HexFlasher halOk (bufOfList (asciiBytes extText)) record0 world0).2.2.programs
      = world0.programs ∧
    (BTL_HexFlasher halOk (bufOfList (asciiBytes extText)) record0 world0).2.1.BTL_ADDRESS_HIGH
      = highWordAt (bufOfList (asciiBytes extText)) record0.BTL_BUFFER_POINTER :=
  BTL_HexFlasher_ext_linear halOk (bufOfList (asciiBytes extText)) record0 world0 (by decide)

/-- C3, the code at two failing inputs: when `malloc` returns `NULL`, and when the
reception of the second packet fails, `BTL_UpdateFirmware` returns `BTL_ERROR` with
the flash still unlocked. -/
theorem BTL_UpdateFirmware_returns_unlocked :
    (BTL_UpdateFirmware envNoMemory [lastPacket] (fun _ => 0) 11 world0).map
        (fun res => (res.1, res.2.flashLocked)) = some (BTL_ERROR, false) ∧
    (BTL_UpdateFirmware envOk [morePacket, failedRx] (fun _ => 0) 11 world0).map
        (fun res => (res.1, res.2.flashLocked)) = some (BTL_ERROR, false) := by
  decide

/-- C4, as stated, fails: a session whose only packet has the done flag 0x00 returns
`BTL_OK`, so the last packet of a successful session had the done flag 0x00, not 0x01.
(In the one session evaluated beside it, whose only packet has the done flag 0x01 and is
programmed without failure, no `BTL_OK` is returned: the function asks for a further
packet.) -/
theorem BTL_UpdateFirmware_ok_after_done_flag_zero :
    (BTL_UpdateFirmware envOk [lastPacket] (fun _ => 0) 11 world0).map
        (fun res => (res.1, res.2.packets.getLast?)) = some (BTL_OK, some 0x00) ∧
    BTL_UpdateFirmware envOk [morePacket] (fun _ => 0) 11 world0 = none := by
  decide

theorem BTL_FlashWrite_frame (hal buf : Nat → Nat) (dataLength : Nat) (r : BTL_RecordTypeDef)
    (w : World) (res : Nat × BTL_RecordTypeDef × World)
    (h : BTL_FlashWrite hal buf dataLength r w = some res) :
    dropLogs res.2.2 = dropLogs w :=
  BTL_FlashWrite_loop_frame hal buf _ _ _ _ _ _ h

theorem BTL_SendAck_packets (env : Env) (cmdID : Nat) (w : World) :
    (BTL_SendAck env cmdID w).2.packets = w.packets := rfl

/-- A return of `BTL_OK` from the loop of `BTL_UpdateFirmware` comes after a packet whose
done flag is `BTL_OK`. -/
theorem BTL_UpdateFirmware_loop_ok (env : Env) (rxs : List Rx) :
    ∀ (FlashFailure : Nat) (messageBuffer : Nat → Nat) (dataLength : Nat) (w : World)
      (res : Nat × World), FlashFailure < MAX_TIMEOUT →
      BTL_UpdateFirmware_loop env rxs FlashFailure messageBuffer dataLength w = some res →
      res.1 = BTL_OK → res.2.packets.getLast? = some BTL_OK := by
  induction rxs with
  | nil =>
    intro ff mb dl w res hff h hok
    unfold BTL_UpdateFirmware_loop at h
    cases hm : env.malloc w.mallocs with
    | none =>
      simp only [hm, Option.some.injEq] at h
      subst h
      simp at hok
    | some block =>
      simp only [hm] at h
      cases hf : BTL_FlashWrite env.flashProgram (fun i => mb (BTL_DATA_START + i)) dl
          { block with
            BTL_NO_OF_BUFFER_RECORDS := rd mb BTL_BUFFER_RECORDS0
            BTL_RECORD_INDEX := 0 }
          { flashLocked := w.flashLocked, programs := w.programs, reads := w.reads,
            uartTx := w.uartTx, uartRx := w.uartRx, erases := w.erases,
            mallocs := w.mallocs + 1, packets := w.packets ++ [rd mb BTL_DONE_FLAG] } with
      | none =>
        rw [hf] at h
        simp at h
      | some f =>
        rw [hf] at h
        have hfr := (dropLogs_packets (BTL_FlashWrite_frame _ _ _ _ _ _ hf)).2.2.2.2.2
        simp only [Option.bind] at h
        by_cases hst : f.1 = BTL_OK
        · rw [if_pos hst] at h
          by_cases hd : MAX_TIMEOUT ≤ ff ∨ rd mb BTL_DONE_FLAG = BTL_OK
          · rw [if_pos hd, Option.some.injEq] at h
            subst h
            have hd2 : rd mb BTL_DONE_FLAG = BTL_OK := by
              rcases hd with hd | hd
              · omega
              · exact hd
            show (BTL_SendAck env BTL_APP_FLASH f.2.2).2.packets.getLast? = some BTL_OK
            rw [BTL_SendAck_packets, hfr, hd2]
            simp
          · rw [if_neg hd] at h
            simp at h
        · rw [if_neg hst, Option.some.injEq] at h
          subst h
          simp at hok
  | cons rx rest ih =>
    intro ff mb dl w res hff h hok
    unfold BTL_UpdateFirmware_loop at h
    cases hm : env.malloc w.mallocs with
    | none =>
      simp only [hm, Option.some.injEq] at h
      subst h
      simp at hok
    | some block =>
      simp only [hm] at h
      cases hf : BTL_FlashWrite env.flashProgram (fun i => mb (BTL_DATA_START + i)) dl
          { block with
            BTL_NO_OF_BUFFER_RECORDS := rd mb BTL_BUFFER_RECORDS0
            BTL_RECORD_INDEX := 0 }
          { flashLocked := w.flashLocked, programs := w.programs, reads := w.reads,
            uartTx := w.uartTx, uartRx := w.uartRx, erases := w.erases,
            mallocs := w.mallocs + 1, packets := w.packets ++ [rd mb BTL_DONE_FLAG] } with
      | none =>
        rw [hf] at h
        simp at h
      | some f =>
        rw [hf] at h
        have hfr := (dropLogs_packets (BTL_FlashWrite_frame _ _ _ _ _ _ hf)).2.2.2.2.2
        simp only [Option.bind] at h
        by_cases hst : f.1 = BTL_OK
        · rw [if_pos hst] at h
          by_cases hd : MAX_TIMEOUT ≤ ff ∨ rd mb BTL_DONE_FLAG = BTL_OK
          · rw [if_pos hd, Option.some.injEq] at h
            subst h
            have hd2 : rd mb BTL_DONE_FLAG = BTL_OK := by
              rcases hd with hd | hd
              · omega
              · exact hd
            show (BTL_SendAck env BTL_APP_FLASH f.2.2).2.packets.getLast? = some BTL_OK
            rw [BTL_SendAck_packets, hfr, hd2]
            simp
          · rw [if_neg hd] at h
            have hd3 : rd mb BTL_DONE_FLAG ≠ BTL_OK := fun e => hd (Or.inr e)
            by_cases hrx : rx.status ≠ HAL_OK
            · rw [if_pos hrx, Option.some.injEq] at h
              subst h
              simp at hok
            · rw [if_neg hrx, if_pos hd3] at h
              exact ih _ _ _ _ _ hff h hok
        · rw [if_neg hst, Option.some.injEq] at h
          subst h
          simp at hok

/-- C4, amended. Every run of `BTL_UpdateFirmware` that returns `BTL_OK` ended on a packet
whose done flag (`messageBuffer[BTL_DONE_FLAG]`) was 0x00, the value `BTL_OK`. -/
theorem BTL_UpdateFirmware_ok_last_done_flag (env : Env) (rxs : List Rx)
    (messageBuffer : Nat → Nat) (dataLength : Nat) (w : World) (res : Nat × World)
    (h : BTL_UpdateFirmware env rxs messageBuffer dataLength w = some res)
    (hok : res.1 = BTL_OK) :
    res.2.packets.getLast? = some 0x00 := by
  unfold BTL_UpdateFirmware at h
  by_cases ha : (BTL_SendAck env BTL_APP_FLASH w).1 ≠ BTL_OK
  · rw [if_pos ha, Option.some.injEq] at h
    subst h
    simp at hok
  · rw [if_neg ha] at h
    cases rxs with
    | nil => simp at h
    | cons rx rest =>
      simp only at h
      by_cases hrx : rx.status ≠ HAL_OK
      · rw [if_pos hrx, Option.some.injEq] at h
        subst h
        simp at hok
      · rw [if_neg hrx] at h
        by_cases he : env.sectorError % 4294967296 = 0xFFFFFFFF
        · rw [if_pos he] at h
          exact BTL_UpdateFirmware_loop_ok env rest _ _ _ _ _ (by decide) h hok
        · rw [if_neg he, Option.some.injEq] at h
          subst h
          simp at hok

/-- Witness of C4 (amended): the session whose only packet has the done flag 0x00. -/
theorem BTL_UpdateFirmware_ok_last_done_flag_witness :
    ∃ res, BTL_UpdateFirmware envOk [lastPacket] (fun _ => 0) 11 world0 = some res ∧
      res.1 = BTL_OK ∧ res.2.packets.getLast? = some 0x00 :=
  ⟨((BTL_UpdateFirmware envOk [lastPacket] (fun _ => 0) 11 world0).get (by decide)),
    by simp,
    by decide,
    BTL_UpdateFirmware_ok_last_done_flag envOk [lastPacket] (fun _ => 0) 11 world0 _
      (by simp) (by decide)⟩

/-! ## One pass of the loop of `BTL_FlashWrite` -/

theorem BTL_FlashWrite_loop_done (hal buf : Nat → Nat) (fuel FlashFailure BTL_STATUS : Nat)
    (r : BTL_RecordTypeDef) (w : World)
    (hc : ¬ r.BTL_RECORD_INDEX < r.BTL_NO_OF_BUFFER_RECORDS) :
    BTL_FlashWrite_loop hal buf fuel FlashFailure BTL_STATUS r w = some (BTL_STATUS, r, w) := by
  unfold BTL_FlashWrite_loop
  rw [if_neg hc]

theorem BTL_FlashWrite_loop_no_fuel (hal buf : Nat → Nat) (FlashFailure BTL_STATUS : Nat)
    (r : BTL_RecordTypeDef) (w : World)
    (hc : r.BTL_RECORD_INDEX < r.BTL_NO_OF_BUFFER_RECORDS) :
    BTL_FlashWrite_loop hal buf 0 FlashFailure BTL_STATUS r w = none := by
  unfold BTL_FlashWrite_loop
  rw [if_pos hc]

/-- A pass in which `BTL_HexFlasher` returns `BTL_OK`. -/
theorem BTL_FlashWrite_loop_pass_ok (hal buf : Nat → Nat) (fuel FlashFailure BTL_STATUS : Nat)
    (r r1 : BTL_RecordTypeDef) (w w1 : World)
    (hc : r.BTL_RECORD_INDEX < r.BTL_NO_OF_BUFFER_RECORDS)
    (hff : FlashFailure < MAX_TIMEOUT)
    (hH : BTL_HexFlasher hal buf r w = (BTL_OK, r1, w1)) :
    BTL_FlashWrite_loop hal buf (fuel + 1) FlashFailure BTL_STATUS r w
      = BTL_FlashWrite_loop hal buf fuel FlashFailure BTL_OK
          { r1 with BTL_RECORD_INDEX := (r1.BTL_RECORD_INDEX + 1) % 65536 } w1 := by
  have hto : ¬ MAX_TIMEOUT ≤ FlashFailure := by omega
  rw [BTL_FlashWrite_loop, if_pos hc]
  simp only
  rw [hH]
  simp only [if_true, if_neg hto]

/-- A pass in which `BTL_HexFlasher` returns another status than `BTL_OK`. -/
theorem BTL_FlashWrite_loop_pass_failed (hal buf : Nat → Nat)
    (fuel FlashFailure BTL_STATUS s : Nat) (r r1 : BTL_RecordTypeDef) (w w1 : World)
    (hc : r.BTL_RECORD_INDEX < r.BTL_NO_OF_BUFFER_RECORDS)
    (hs : s ≠ BTL_OK)
    (hH : BTL_HexFlasher hal buf r w = (s, r1, w1)) :
    BTL_FlashWrite_loop hal buf (fuel + 1) FlashFailure BTL_STATUS r w
      = if MAX_TIMEOUT ≤ (FlashFailure + 1) % 256 then some (BTL_ERROR, r1, w1)
        else BTL_FlashWrite_loop hal buf fuel ((FlashFailure + 1) % 256) BTL_STATUS r1 w1 := by
  rw [BTL_FlashWrite_loop, if_pos hc]
  simp only
  rw [hH]
  simp only [if_neg hs]

/-- More fuel does not change what the loop of `BTL_FlashWrite` returns. -/
theorem BTL_FlashWrite_loop_more_fuel (hal buf : Nat → Nat) (fuel : Nat) :
    ∀ (FlashFailure BTL_STATUS : Nat) (r : BTL_RecordTypeDef) (w : World)
      (res : Nat × BTL_RecordTypeDef × World),
      BTL_FlashWrite_loop hal buf fuel FlashFailure BTL_STATUS r w = some res →
      BTL_FlashWrite_loop hal buf (fuel + 1) FlashFailure BTL_STATUS r w = some res := by
  induction fuel with
  | zero =>
    intro ff st r w res h
    by_cases hc : r.BTL_RECORD_INDEX < r.BTL_NO_OF_BUFFER_RECORDS
    · rw [BTL_FlashWrite_loop_no_fuel hal buf ff st r w hc] at h
      exact absurd h (by simp)
    · rw [BTL_FlashWrite_loop_done hal buf _ ff st r w hc] at h ⊢
      exact h
  | succ fuel ih =>
    intro ff st r w res h
    by_cases hc : r.BTL_RECORD_INDEX < r.BTL_NO_OF_BUFFER_RECORDS
    · rw [BTL_FlashWrite_loop, if_pos hc] at h ⊢
      simp only at h ⊢
      generalize BTL_HexFlasher hal buf r w = H at h ⊢
      split_ifs at h ⊢ with hok hto hto
      · exact h
      · exact ih _ _ _ _ _ h
      · exact h
      · exact ih _ _ _ _ _ h
    · rw [BTL_FlashWrite_loop_done hal buf _ ff st r w hc] at h ⊢
      exact h

/-! ## The Data branch of `BTL_HexFlasher` -/

theorem programByte_foldl_status (hal : Nat → Nat) (buf : Nat → Nat) (l : List Nat)
    (s : Nat × BTL_RecordTypeDef × World) :
    (l.foldl (programByte hal buf) s).1
      = if l = [] then s.1 else hal (s.2.2.programs.length + l.length - 1) := by
  induction l generalizing s with
  | nil => simp
  | cons i l ih =>
    rw [List.foldl_cons, ih (programByte hal buf s i)]
    have e1 : (programByte hal buf s i).1 = hal s.2.2.programs.length := rfl
    have e2 : (programByte hal buf s i).2.2.programs.length = s.2.2.programs.length + 1 := by
      simp [programByte]
    rw [e1, e2]
    by_cases hl : l = []
    · subst hl
      simp
    · have hpos : 0 < l.length := List.length_pos.2 hl
      rw [if_neg hl, if_neg (List.cons_ne_nil i l), List.length_cons]
      congr 1
      omega

theorem programLoop_status (hal : Nat → Nat) (buf : Nat → Nat) (st : Nat)
    (r : BTL_RecordTypeDef) (w : World) :
    (programLoop hal buf (st, r, w)).1
      = if r.BTL_CC = 0 then st else hal (w.programs.length + r.BTL_CC - 1) := by
  have h := programByte_foldl_status hal buf (List.range r.BTL_CC) (st, r, w)
  rw [List.length_range] at h
  by_cases hz : r.BTL_CC = 0
  · rw [if_pos hz]
    rw [if_pos (by rw [hz]; rfl)] at h
    exact h
  · rw [if_neg hz]
    have hne : ¬ List.range r.BTL_CC = [] := by
      intro e
      have := congrArg List.length e
      rw [List.length_range] at this
      exact hz this
    rw [if_neg hne] at h
    exact h

theorem dataOutcome_status (hal buf : Nat → Nat) (r : BTL_RecordTypeDef) (w : World) :
    (dataOutcome hal buf r w).1
      = if (dataRecordOf buf r).BTL_CC = 0 then BTL_OK
        else hal (w.programs.length + (dataRecordOf buf r).BTL_CC - 1) := by
  have h := programLoop_status hal buf BTL_OK (dataRecordOf buf r)
    (BTL_CheckRecord buf (dataRecordOf buf r) (dataWorld buf r w)).2
  obtain ⟨-, c2⟩ := BTL_CheckRecord_world buf (dataRecordOf buf r) (dataWorld buf r w)
  have d1 : (dataWorld buf r w).programs = w.programs := rfl
  have e1 : (dataOutcome hal buf r w).1 = (programLoop hal buf (BTL_OK, dataRecordOf buf r,
      (BTL_CheckRecord buf (dataRecordOf buf r) (dataWorld buf r w)).2)).1 := rfl
  rw [e1, h, c2, d1]

theorem BTL_HexFlasher_data_valid (hal buf : Nat → Nat) (r : BTL_RecordTypeDef) (w : World)
    (ht : hexByte buf (r.BTL_BUFFER_POINTER + BTL_RT_0) (r.BTL_BUFFER_POINTER + BTL_RT_1)
      = BTL_DATA_RECORD_TYPE)
    (hv : (BTL_CheckRecord buf (dataRecordOf buf r) (dataWorld buf r w)).1 = BTL_OK) :
    BTL_HexFlasher hal buf r w = dataOutcome hal buf r w := by
  have h1 : ¬ hexByte buf (r.BTL_BUFFER_POINTER + BTL_RT_0) (r.BTL_BUFFER_POINTER + BTL_RT_1)
      = BTL_EOF_RECORD_TYPE := by rw [ht]; decide
  rw [BTL_HexFlasher_eq, if_neg h1, if_pos ht, if_pos hv]

theorem BTL_HexFlasher_data_invalid (hal buf : Nat → Nat) (r : BTL_RecordTypeDef) (w : World)
    (ht : hexByte buf (r.BTL_BUFFER_POINTER + BTL_RT_0) (r.BTL_BUFFER_POINTER + BTL_RT_1)
      = BTL_DATA_RECORD_TYPE)
    (hv : ¬ (BTL_CheckRecord buf (dataRecordOf buf r) (dataWorld buf r w)).1 = BTL_OK) :
    BTL_HexFlasher hal buf r w
      = (BTL_ERROR, dataRecordOf buf r,
          (BTL_CheckRecord buf (dataRecordOf buf r) (dataWorld buf r w)).2) := by
  have h1 : ¬ hexByte buf (r.BTL_BUFFER_POINTER + BTL_RT_0) (r.BTL_BUFFER_POINTER + BTL_RT_1)
      = BTL_EOF_RECORD_TYPE := by rw [ht]; decide
  rw [BTL_HexFlasher_eq, if_neg h1, if_pos ht, if_neg hv]

/-- A decoded Data record passes `BTL_CheckRecord` exactly when its count is at most
`BTL_MAX_CC` and its checksum matches: its address is always within the bounds. -/
theorem dataRecordOf_valid_iff (buf : Nat → Nat) (r : BTL_RecordTypeDef) (w : World) :
    (BTL_CheckRecord buf (dataRecordOf buf r) w).1 = BTL_OK ↔
      (hexByte buf r.BTL_BUFFER_POINTER (r.BTL_BUFFER_POINTER + 1) ≤ BTL_MAX_CC ∧
       CalculateChecksum (checkBytes buf r.BTL_BUFFER_POINTER
          (hexByte buf r.BTL_BUFFER_POINTER (r.BTL_BUFFER_POINTER + 1)))
        = hexByte buf
          (r.BTL_BUFFER_POINTER + hexByte buf r.BTL_BUFFER_POINTER (r.BTL_BUFFER_POINTER + 1) * 2 + 8)
          (r.BTL_BUFFER_POINTER + hexByte buf r.BTL_BUFFER_POINTER (r.BTL_BUFFER_POINTER + 1) * 2 + 9)) := by
  have hadd := dataRecordOf_ADD buf r
  have hoff := offsetAt_lt buf r.BTL_BUFFER_POINTER
  rw [BTL_CheckRecord_ok_iff]
  constructor
  · intro h
    exact ⟨h.2.2.1, h.2.2.2⟩
  · intro h
    refine ⟨?_, ?_, h.1, h.2⟩
    · rw [hadd]
      simp only [BTL_MIN_ADDRESS]
      omega
    · rw [hadd]
      simp only [BTL_MAX_ADDRESS]
      omega

/-! ## The loop of `BTL_FlashWrite` at an End-Of-File record and at a record that fails -/

/-- With the cursor at an End-Of-File record, the loop of `BTL_FlashWrite` returns
`BTL_OK` once the record count is used up: nothing is programmed, the cursor stays, and
only the six header characters of that record are read. -/
theorem BTL_FlashWrite_loop_eof (hal buf : Nat → Nat) (FlashFailure : Nat) (p n : Nat)
    (heof : hexByte buf (p + BTL_RT_0) (p + BTL_RT_1) = BTL_EOF_RECORD_TYPE)
    (hff : FlashFailure < MAX_TIMEOUT) (hn : n < 65536) (fuel : Nat) :
    ∀ (BTL_STATUS : Nat) (r : BTL_RecordTypeDef) (w : World),
      r.BTL_BUFFER_POINTER = p → r.BTL_NO_OF_BUFFER_RECORDS = n →
      r.BTL_NO_OF_BUFFER_RECORDS - r.BTL_RECORD_INDEX ≤ fuel →
      (r.BTL_RECORD_INDEX < r.BTL_NO_OF_BUFFER_RECORDS ∨
        (r.BTL_RECORD_INDEX = r.BTL_NO_OF_BUFFER_RECORDS ∧ BTL_STATUS = BTL_OK)) →
      ∃ r1 w1, BTL_FlashWrite_loop hal buf fuel FlashFailure BTL_STATUS r w
          = some (BTL_OK, r1, w1) ∧
        w1.programs = w.programs ∧ r1.BTL_BUFFER_POINTER = p ∧
        r1.BTL_RECORD_INDEX = n ∧
        ∀ i ∈ w1.reads, i ∈ w.reads ∨
          i ∈ [p + 6, p + 7, p, p + 1, p + hexByte buf p (p + 1) * 2 + 8,
               p + hexByte buf p (p + 1) * 2 + 9] := by
  induction fuel with
  | zero =>
    intro st r w hp hcount hfuel hcase
    rcases hcase with hlt | ⟨heq, hst⟩
    · omega
    · rw [BTL_FlashWrite_loop_done hal buf 0 FlashFailure st r w (by omega), hst]
      exact ⟨r, w, rfl, rfl, hp, by omega, fun i hi => Or.inl hi⟩
  | succ fuel ih =>
    intro st r w hp hcount hfuel hcase
    rcases hcase with hlt | ⟨heq, hst⟩
    · have heof1 : hexByte buf (r.BTL_BUFFER_POINTER + BTL_RT_0) (r.BTL_BUFFER_POINTER + BTL_RT_1)
          = BTL_EOF_RECORD_TYPE := by rw [hp]; exact heof
      rw [BTL_FlashWrite_loop_pass_ok hal buf fuel FlashFailure st r (headerOf buf r) w
        (headerWorld buf r w) hlt hff (BTL_HexFlasher_eof hal buf r w heof1)]
      have hidx : (headerOf buf r).BTL_RECORD_INDEX = r.BTL_RECORD_INDEX := rfl
      have hmod : (r.BTL_RECORD_INDEX + 1) % 65536 = r.BTL_RECORD_INDEX + 1 := by
        apply Nat.mod_eq_of_lt
        omega
      obtain ⟨r1, w1, e1, e2, e3, e4, e5⟩ := ih BTL_OK
        { headerOf buf r with
          BTL_RECORD_INDEX := ((headerOf buf r).BTL_RECORD_INDEX + 1) % 65536 }
        (headerWorld buf r w) hp hcount
        (by
          show r.BTL_NO_OF_BUFFER_RECORDS - (r.BTL_RECORD_INDEX + 1) % 65536 ≤ fuel
          rw [hmod]
          omega)
        (by
          show (r.BTL_RECORD_INDEX + 1) % 65536 < r.BTL_NO_OF_BUFFER_RECORDS ∨
            ((r.BTL_RECORD_INDEX + 1) % 65536 = r.BTL_NO_OF_BUFFER_RECORDS ∧ BTL_OK = BTL_OK)
          rw [hmod]
          omega)
      refine ⟨r1, w1, e1, e2, e3, e4, ?_⟩
      intro i hi
      rcases e5 i hi with h | h
      · have hr : (headerWorld buf r w).reads
            = w.reads ++ [p + 6, p + 7, p, p + 1, p + hexByte buf p (p + 1) * 2 + 8,
                p + hexByte buf p (p + 1) * 2 + 9] := by
          rw [← hp]
          rfl
        rw [hr] at h
        rcases List.mem_append.1 h with h | h
        · exact Or.inl h
        · exact Or.inr h
      · exact Or.inr h
    · rw [BTL_FlashWrite_loop_done hal buf _ FlashFailure st r w (by omega), hst]
      exact ⟨r, w, rfl, rfl, hp, by omega, fun i hi => Or.inl hi⟩

/-- C12. For every 8-bit input `c`, `BTL_ASCHIIToHex c` is `c - '0'` when `c` is
`'0'..'9'`, `c - 'A' + 10` when `c` is `'A'..'F'`, `c - 'a' + 10` when `c` is `'a'..'f'`,
and 0 for every other value; the result is always below 16. -/
theorem BTL_ASCHIIToHex_table (c : Nat) (hc : c < 256) :
    ('0'.toNat ≤ c ∧ c ≤ '9'.toNat → BTL_ASCHIIToHex c = c - '0'.toNat) ∧
    ('A'.toNat ≤ c ∧ c ≤ 'F'.toNat → BTL_ASCHIIToHex c = c - 'A'.toNat + 10) ∧
    ('a'.toNat ≤ c ∧ c ≤ 'f'.toNat → BTL_ASCHIIToHex c = c - 'a'.toNat + 10) ∧
    (¬ ('0'.toNat ≤ c ∧ c ≤ '9'.toNat) → ¬ ('A'.toNat ≤ c ∧ c ≤ 'F'.toNat) →
      ¬ ('a'.toNat ≤ c ∧ c ≤ 'f'.toNat) → BTL_ASCHIIToHex c = 0) ∧
    BTL_ASCHIIToHex c < 16 := by
  have e0 : '0'.toNat = 48 := rfl
  have e9 : '9'.toNat = 57 := rfl
  have eA : 'A'.toNat = 65 := rfl
  have eF : 'F'.toNat = 70 := rfl
  have ea : 'a'.toNat = 97 := rfl
  have ef : 'f'.toNat = 102 := rfl
  rw [e0, e9, eA, eF, ea, ef]
  refine ⟨?_, ?_, ?_, ?_, BTL_ASCHIIToHex_lt c⟩
  · intro h
    unfold BTL_ASCHIIToHex
    rw [if_pos h]
    omega
  · intro h
    unfold BTL_ASCHIIToHex
    rw [if_neg (by omega), if_pos h]
    omega
  · intro h
    unfold BTL_ASCHIIToHex
    rw [if_neg (by omega), if_neg (by omega), if_pos h]
    omega
  · intro h1 h2 h3
    unfold BTL_ASCHIIToHex
    rw [if_neg h1, if_neg h2, if_neg h3]

/-- Witness of C12: the digits `'7'`, `'C'` and `'e'`, and the newline character. -/
theorem BTL_ASCHIIToHex_table_witness :
    BTL_ASCHIIToHex '7'.toNat = '7'.toNat - '0'.toNat ∧
    BTL_ASCHIIToHex 'C'.toNat = 'C'.toNat - 'A'.toNat + 10 ∧
    BTL_ASCHIIToHex 'e'.toNat = 'e'.toNat - 'a'.toNat + 10 ∧
    BTL_ASCHIIToHex '\n'.toNat = 0 :=
  ⟨(BTL_ASCHIIToHex_table '7'.toNat (by decide)).1 (by decide),
   (BTL_ASCHIIToHex_table 'C'.toNat (by decide)).2.1 (by decide),
   (BTL_ASCHIIToHex_table 'e'.toNat (by decide)).2.2.1 (by decide),
   (BTL_ASCHIIToHex_table '\n'.toNat (by decide)).2.2.2.1 (by decide) (by decide) (by decide)⟩

/-- C13, as stated, fails: `BTL_SendAck` and `BTL_SendNAck` each hand the UART 512
bytes, not one. -/
theorem BTL_SendAck_hands_512_bytes :
    (BTL_SendAck envOk BTL_APP_FLASH world0).2.uartTx.map List.length = [512] ∧
    (BTL_SendNAck envOk world0).2.uartTx.map List.length = [512] := by
  decide!

/-- C13, amended. For every command id, `BTL_SendAck` makes one `HAL_UART_Transmit` call
and hands it the 512 bytes of the message array: the command id (as an unsigned char)
followed by 511 bytes 0x00; `BTL_SendNAck` makes one call and hands it 512 bytes 0x00. -/
theorem BTL_SendAck_message (env : Env) (cmdID : Nat) (w : World) :
    (BTL_SendAck env cmdID w).2.uartTx = w.uartTx ++ [cmdID % 256 :: List.replicate 511 0] ∧
    (BTL_SendNAck env w).2.uartTx = w.uartTx ++ [List.replicate 512 0] ∧
    (cmdID % 256 :: List.replicate 511 0).length = 512 := by
  refine ⟨rfl, rfl, ?_⟩
  rw [List.length_cons, List.length_replicate]

/-- C14, as stated, fails: `CalculateChecksum` over 04 00 00 00 DE AD BE EF is not
0x9A, and the record text 04000000DEADBEEF9A is turned down by `BTL_CheckRecord`, so
that `BTL_HexFlasher` returns `BTL_ERROR` and programs nothing. -/
theorem CalculateChecksum_s3_is_not_9A :
    CalculateChecksum [0x04, 0x00, 0x00, 0x00, 0xDE, 0xAD, 0xBE, 0xEF] ≠ 0x9A ∧
    (BTL_CheckRecord (bufOfList (asciiBytes s3Text))
      (dataRecordOf (bufOfList (asciiBytes s3Text)) record0) world0).1 = BTL_ERROR ∧
    (BTL_HexFlasher halOk (bufOfList (asciiBytes s3Text)) record0 world0).1 = BTL_ERROR ∧
    (BTL_HexFlasher halOk (bufOfList (asciiBytes s3Text)) record0 world0).2.2.programs = [] := by
  decide

/-- C14, amended. `CalculateChecksum` over 04 00 00 00 DE AD BE EF returns 0xC4, so the
record text 04000000DEADBEEFC4 passes `BTL_CheckRecord` at the high word 0x0800 and its
four bytes DE AD BE EF are programmed (from 0x08008000 on). -/
theorem CalculateChecksum_s3_is_C4 :
    CalculateChecksum [0x04, 0x00, 0x00, 0x00, 0xDE, 0xAD, 0xBE, 0xEF] = 0xC4 ∧
    (dataRecordOf (bufOfList (asciiBytes dataText)) record0).BTL_ADDRESS_HIGH = 0x0800 ∧
    (BTL_CheckRecord (bufOfList (asciiBytes dataText))
      (dataRecordOf (bufOfList (asciiBytes dataText)) record0) world0).1 = BTL_OK ∧
    (BTL_HexFlasher halOk (bufOfList (asciiBytes dataText)) record0 world0).1 = BTL_OK ∧
    (BTL_HexFlasher halOk (bufOfList (asciiBytes dataText)) record0 world0).2.2.programs
      = [(0x08008000, 0xDE), (0x08008001, 0xAD), (0x08008002, 0xBE), (0x08008003, 0xEF)] := by
  decide

/-- C17, the code at the failing input: the first packet (done flag 0x02, next size 11)
holds a Data record with a wrong checksum; `BTL_UpdateFirmware` answers with the NACK
and returns `BTL_ERROR` at once, with a single `HAL_UART_Receive` call on record (the
one of the first packet), although a further packet is waiting. -/
theorem BTL_UpdateFirmware_gives_up_after_first_failure :
    (BTL_UpdateFirmware envOk [failingPacket, followingPacket] (fun _ => 0) 19 world0).map
        (fun res => (res.1, res.2.flashLocked)) = some (BTL_ERROR, true) ∧
    (BTL_UpdateFirmware envOk [failingPacket, followingPacket] (fun _ => 0) 19 world0).map
        (fun res => res.2.uartRx) = some [(BTL_DONE_FLAG, 23)] ∧
    (BTL_UpdateFirmware envOk [failingPacket, followingPacket] (fun _ => 0) 19 world0).map
        (fun res => res.2.packets) = some [0x02] ∧
    (BTL_UpdateFirmware envOk [failingPacket, followingPacket] (fun _ => 0) 19 world0).map
        (fun res => res.2.uartTx.map List.head?) = some [some BTL_APP_FLASH, some 0x00] := by
  decide!

/-- C18. When the erase does not leave the sentinel 0xFFFFFFFF in `SECTOR_ERROR`,
`BTL_UpdateFirmware` (once the ACK is out and the first packet is in) hands no packet to
`BTL_FlashWrite`, makes no `HAL_FLASH_Program` call, receives nothing further, locks the
flash again and returns `BTL_ERROR`. -/
theorem BTL_UpdateFirmware_erase_failed (env : Env) (rx : Rx) (rest : List Rx)
    (messageBuffer : Nat → Nat) (dataLength : Nat) (w : World)
    (hack : (BTL_SendAck env BTL_APP_FLASH w).1 = BTL_OK) (hrx : rx.status = HAL_OK)
    (herase : env.sectorError % 4294967296 ≠ 0xFFFFFFFF) :
    ∃ w1, BTL_UpdateFirmware env (rx :: rest) messageBuffer dataLength w = some (BTL_ERROR, w1) ∧
      w1.flashLocked = true ∧ w1.programs = w.programs ∧ w1.packets = w.packets ∧
      w1.mallocs = w.mallocs ∧ w1.erases = w.erases + 1 ∧
      w1.uartRx = w.uartRx ++ [(BTL_DONE_FLAG, (dataLength + 4) % 65536)] := by
  unfold BTL_UpdateFirmware
  have h1 : ¬ (BTL_SendAck env BTL_APP_FLASH w).1 ≠ BTL_OK := fun h => h hack
  have h2 : ¬ rx.status ≠ HAL_OK := fun h => h hrx
  rw [if_neg h1]
  simp only
  rw [if_neg h2, if_neg herase]
  exact ⟨_, rfl, rfl, rfl, rfl, rfl, rfl, rfl⟩

/-- Witness of C18: the session in which the erase leaves 0 in `SECTOR_ERROR`. -/
theorem BTL_UpdateFirmware_erase_failed_witness :
    ∃ w1, BTL_UpdateFirmware envEraseFails (lastPacket :: []) (fun _ => 0) 11 world0
        = some (BTL_ERROR, w1) ∧
      w1.flashLocked = true ∧ w1.programs = world0.programs ∧ w1.packets = world0.packets ∧
      w1.mallocs = world0.mallocs ∧ w1.erases = world0.erases + 1 ∧
      w1.uartRx = world0.uartRx ++ [(BTL_DONE_FLAG, (11 + 4) % 65536)] :=
  BTL_UpdateFirmware_erase_failed envEraseFails lastPacket [] (fun _ => 0) 11 world0
    (by decide) (by decide) (by decide)

/-- C19, the code at the failing input: the first of the four byte-program calls of a
valid Data record reports `HAL_ERROR`, the other three `HAL_OK`; `BTL_HexFlasher` returns
`BTL_OK` all the same and `BTL_FlashWrite` counts the record as consumed
(`BTL_RECORD_INDEX` is 1 and the packet status is `BTL_OK`). -/
theorem BTL_HexFlasher_keeps_last_program_status :
    halFirstFails 0 ≠ HAL_OK ∧
    (BTL_HexFlasher halFirstFails (bufOfList (asciiBytes dataText)) record0 world0).1 = BTL_OK ∧
    (BTL_FlashWrite halFirstFails (bufOfList (asciiBytes dataText)) 19
        { record0 with BTL_NO_OF_BUFFER_RECORDS := 1 } world0).map
        (fun res => (res.1, res.2.1.BTL_RECORD_INDEX, res.2.2.programs.length))
      = some (BTL_OK, 1, 4) := by
  decide

/-- C11. A Data record with matching checksum (its address is always within the bounds)
is accepted by `BTL_HexFlasher` exactly when its byte count is at most `BTL_MAX_CC` = 16.
With a count up to 16 it programs as many bytes as the count says, moves the cursor by
count * 2 + 11 and returns `BTL_OK` when the flash driver reports `HAL_OK`; with the count
0 it returns `BTL_OK`, programs no byte and moves the cursor by 11; with the count 16 it
programs 16 bytes; with a count above 16 it returns `BTL_ERROR`, programs nothing and
leaves the cursor. -/
theorem BTL_HexFlasher_byte_count (hal buf : Nat → Nat) (r : BTL_RecordTypeDef) (w : World)
    (ht : hexByte buf (r.BTL_BUFFER_POINTER + 6) (r.BTL_BUFFER_POINTER + 7)
      = BTL_DATA_RECORD_TYPE)
    (hsum : CalculateChecksum (checkBytes buf r.BTL_BUFFER_POINTER
          (hexByte buf r.BTL_BUFFER_POINTER (r.BTL_BUFFER_POINTER + 1)))
        = hexByte buf
          (r.BTL_BUFFER_POINTER + hexByte buf r.BTL_BUFFER_POINTER (r.BTL_BUFFER_POINTER + 1) * 2 + 8)
          (r.BTL_BUFFER_POINTER + hexByte buf r.BTL_BUFFER_POINTER (r.BTL_BUFFER_POINTER + 1) * 2 + 9)) :
    (hexByte buf r.BTL_BUFFER_POINTER (r.BTL_BUFFER_POINTER + 1) ≤ BTL_MAX_CC →
      (BTL_HexFlasher hal buf r w).2.2.programs.length
        = w.programs.length + hexByte buf r.BTL_BUFFER_POINTER (r.BTL_BUFFER_POINTER + 1) ∧
      (BTL_HexFlasher hal buf r w).2.1.BTL_BUFFER_POINTER
        = (r.BTL_BUFFER_POINTER
            + (hexByte buf r.BTL_BUFFER_POINTER (r.BTL_BUFFER_POINTER + 1) * 2 + 11)) % 65536 ∧
      ((∀ k, hal k = HAL_OK) → (BTL_HexFlasher hal buf r w).1 = BTL_OK)) ∧
    (hexByte buf r.BTL_BUFFER_POINTER (r.BTL_BUFFER_POINTER + 1) = 0 →
      (BTL_HexFlasher hal buf r w).1 = BTL_OK ∧
      (BTL_HexFlasher hal buf r w).2.2.programs = w.programs ∧
      (BTL_HexFlasher hal buf r w).2.1.BTL_BUFFER_POINTER
        = (r.BTL_BUFFER_POINTER + 11) % 65536) ∧
    (hexByte buf r.BTL_BUFFER_POINTER (r.BTL_BUFFER_POINTER + 1) = BTL_MAX_CC →
      (BTL_HexFlasher hal buf r w).2.2.programs.length = w.programs.length + 16) ∧
    (BTL_MAX_CC < hexByte buf r.BTL_BUFFER_POINTER (r.BTL_BUFFER_POINTER + 1) →
      (BTL_HexFlasher hal buf r w).1 = BTL_ERROR ∧
      (BTL_HexFlasher hal buf r w).2.2.programs = w.programs ∧
      (BTL_HexFlasher hal buf r w).2.1.BTL_BUFFER_POINTER = r.BTL_BUFFER_POINTER) := by
  have hcc : (dataRecordOf buf r).BTL_CC
      = hexByte buf r.BTL_BUFFER_POINTER (r.BTL_BUFFER_POINTER + 1) := rfl
  have accepted : hexByte buf r.BTL_BUFFER_POINTER (r.BTL_BUFFER_POINTER + 1) ≤ BTL_MAX_CC →
      (BTL_HexFlasher hal buf r w).2.2.programs
        = w.programs ++ (List.range (hexByte buf r.BTL_BUFFER_POINTER
            (r.BTL_BUFFER_POINTER + 1))).map (programCall buf (dataRecordOf buf r)) ∧
      (BTL_HexFlasher hal buf r w).2.1.BTL_BUFFER_POINTER
        = (r.BTL_BUFFER_POINTER
            + (hexByte buf r.BTL_BUFFER_POINTER (r.BTL_BUFFER_POINTER + 1) * 2 + 11)) % 65536 ∧
      (BTL_HexFlasher hal buf r w).1
        = if hexByte buf r.BTL_BUFFER_POINTER (r.BTL_BUFFER_POINTER + 1) = 0 then BTL_OK
          else hal (w.programs.length
            + hexByte buf r.BTL_BUFFER_POINTER (r.BTL_BUFFER_POINTER + 1) - 1) := by
    intro hle
    have hv := (dataRecordOf_valid_iff buf r (dataWorld buf r w)).2 ⟨hle, hsum⟩
    rw [BTL_HexFlasher_data_valid hal buf r w ht hv]
    obtain ⟨p1, -, p3⟩ := dataOutcome_spec hal buf r w
    obtain ⟨-, -, -, -, -, f6, -, -⟩ := dropData_fields p3
    have p4 := dataOutcome_status hal buf r w
    rw [hcc] at p1 p4
    exact ⟨p1, f6, p4⟩
  refine ⟨?_, ?_, ?_, ?_⟩
  · intro hle
    obtain ⟨a1, a2, a3⟩ := accepted hle
    refine ⟨?_, a2, ?_⟩
    · rw [a1, List.length_append, List.length_map, List.length_range]
    · intro hhal
      rw [a3]
      split_ifs
      · rfl
      · exact hhal _
  · intro hz
    have hle : hexByte buf r.BTL_BUFFER_POINTER (r.BTL_BUFFER_POINTER + 1) ≤ BTL_MAX_CC := by
      rw [hz]; decide
    obtain ⟨a1, a2, a3⟩ := accepted hle
    rw [hz] at a1 a2 a3
    refine ⟨?_, ?_, a2⟩
    · rw [a3, if_pos rfl]
    · rw [a1]
      simp
  · intro h16
    obtain ⟨a1, -, -⟩ := accepted (le_of_eq h16)
    rw [a1, List.length_append, List.length_map, List.length_range, h16]
  · intro hgt
    have hv : ¬ (BTL_CheckRecord buf (dataRecordOf buf r) (dataWorld buf r w)).1 = BTL_OK := by
      intro hok
      have := ((dataRecordOf_valid_iff buf r (dataWorld buf r w)).1 hok).1
      omega
    obtain ⟨-, c2⟩ := BTL_CheckRecord_world buf (dataRecordOf buf r) (dataWorld buf r w)
    rw [BTL_HexFlasher_data_invalid hal buf r w ht hv, fst3, snd3, thd3]
    exact ⟨rfl, c2, rfl⟩

/-- Witness of C11: the Data records with the counts 0, 16 and 17. -/
theorem BTL_HexFlasher_byte_count_witness :
    ((BTL_HexFlasher halOk (bufOfList (asciiBytes zeroCountText)) record0 world0).1 = BTL_OK ∧
      (BTL_HexFlasher halOk (bufOfList (asciiBytes zeroCountText)) record0 world0).2.2.programs
        = world0.programs ∧
      (BTL_HexFlasher halOk (bufOfList (asciiBytes zeroCountText)) record0
        world0).2.1.BTL_BUFFER_POINTER = (record0.BTL_BUFFER_POINTER + 11) % 65536) ∧
    ((BTL_HexFlasher halOk (bufOfList (asciiBytes sixteenText)) record0
        world0).2.2.programs.length = world0.programs.length + 16) ∧
    ((BTL_HexFlasher halOk (bufOfList (asciiBytes sixteenText)) record0 world0).1 = BTL_OK) ∧
    ((BTL_HexFlasher halOk (bufOfList (asciiBytes seventeenText)) record0 world0).1 = BTL_ERROR ∧
      (BTL_HexFlasher halOk (bufOfList (asciiBytes seventeenText)) record0 world0).2.2.programs
        = world0.programs ∧
      (BTL_HexFlasher halOk (bufOfList (asciiBytes seventeenText)) record0
        world0).2.1.BTL_BUFFER_POINTER = record0.BTL_BUFFER_POINTER) :=
  ⟨(BTL_HexFlasher_byte_count halOk (bufOfList (asciiBytes zeroCountText)) record0 world0
      (by decide) (by decide)).2.1 (by decide),
   (BTL_HexFlasher_byte_count halOk (bufOfList (asciiBytes sixteenText)) record0 world0
      (by decide) (by decide)).2.2.1 (by decide),
   ((BTL_HexFlasher_byte_count halOk (bufOfList (asciiBytes sixteenText)) record0 world0
      (by decide) (by decide)).1 (by decide)).2.2 (fun _ => rfl),
   (BTL_HexFlasher_byte_count halOk (bufOfList (asciiBytes seventeenText)) record0 world0
      (by decide) (by decide)).2.2.2 (by decide)⟩

/-- C15. For every valid Data record (count n at most 16, matching checksum) with the
16-bit offset a, `BTL_HexFlasher` issues exactly n `HAL_FLASH_Program` calls, in ascending
i, the i-th with the address `((0x0800 << 16) | a) + BTL_BOOTLOADER_SIZE + i` and the byte
decoded from the hex pair at cursor + 8 + 2 i. -/
theorem BTL_HexFlasher_program_calls (hal buf : Nat → Nat) (r : BTL_RecordTypeDef) (w : World)
    (ht : hexByte buf (r.BTL_BUFFER_POINTER + 6) (r.BTL_BUFFER_POINTER + 7)
      = BTL_DATA_RECORD_TYPE)
    (hle : hexByte buf r.BTL_BUFFER_POINTER (r.BTL_BUFFER_POINTER + 1) ≤ BTL_MAX_CC)
    (hsum : CalculateChecksum (checkBytes buf r.BTL_BUFFER_POINTER
          (hexByte buf r.BTL_BUFFER_POINTER (r.BTL_BUFFER_POINTER + 1)))
        = hexByte buf
          (r.BTL_BUFFER_POINTER + hexByte buf r.BTL_BUFFER_POINTER (r.BTL_BUFFER_POINTER + 1) * 2 + 8)
          (r.BTL_BUFFER_POINTER + hexByte buf r.BTL_BUFFER_POINTER (r.BTL_BUFFER_POINTER + 1) * 2 + 9)) :
    (BTL_HexFlasher hal buf r w).2.2.programs
      = w.programs ++
        (List.range (hexByte buf r.BTL_BUFFER_POINTER (r.BTL_BUFFER_POINTER + 1))).map
          (fun i =>
            ((((0x0800 <<< 16) ||| offsetAt buf r.BTL_BUFFER_POINTER) + BTL_BOOTLOADER_SIZE + i,
              hexByte buf (r.BTL_BUFFER_POINTER + 8 + i * 2)
                (r.BTL_BUFFER_POINTER + 9 + i * 2)) : Nat × Nat)) := by
  have hv := (dataRecordOf_valid_iff buf r (dataWorld buf r w)).2 ⟨hle, hsum⟩
  have hcc : (dataRecordOf buf r).BTL_CC
      = hexByte buf r.BTL_BUFFER_POINTER (r.BTL_BUFFER_POINTER + 1) := rfl
  have hadd := dataRecordOf_ADD buf r
  have hoff := offsetAt_lt buf r.BTL_BUFFER_POINTER
  have hor : (0x0800 <<< 16) ||| offsetAt buf r.BTL_BUFFER_POINTER
      = 0x08000000 + offsetAt buf r.BTL_BUFFER_POINTER := by
    have e : (0x0800 <<< 16 : Nat) = 0x08000000 := by decide
    rw [e]
    exact lor_eq_add 16 _ _ (by decide) (by omega)
  rw [BTL_HexFlasher_data_valid hal buf r w ht hv, (dataOutcome_spec hal buf r w).1, hcc]
  congr 1
  apply List.map_congr_left
  intro i hi
  have hi2 := List.mem_range.1 hi
  have hp : (dataRecordOf buf r).BTL_BUFFER_POINTER = r.BTL_BUFFER_POINTER := rfl
  simp only [BTL_MAX_CC] at hle
  simp only [programCall, hadd, hor, hp, BTL_BOOTLOADER_SIZE, BTL_DATA_0, BTL_DATA_1]
  congr 1
  omega

/-- Witness of C15: the Data record DE AD BE EF at offset 0000. -/
theorem BTL_HexFlasher_program_calls_witness :
    (BTL_HexFlasher halOk (bufOfList (asciiBytes dataText)) record0 world0).2.2.programs
      = world0.programs ++
        (List.range (hexByte (bufOfList (asciiBytes dataText)) record0.BTL_BUFFER_POINTER
            (record0.BTL_BUFFER_POINTER + 1))).map
          (fun i =>
            ((((0x0800 <<< 16) ||| offsetAt (bufOfList (asciiBytes dataText))
                  record0.BTL_BUFFER_POINTER) + BTL_BOOTLOADER_SIZE + i,
              hexByte (bufOfList (asciiBytes dataText)) (record0.BTL_BUFFER_POINTER + 8 + i * 2)
                (record0.BTL_BUFFER_POINTER + 9 + i * 2)) : Nat × Nat)) :=
  BTL_HexFlasher_program_calls halOk (bufOfList (asciiBytes dataText)) record0 world0
    (by decide) (by decide) (by decide)

/-- A Data record that fails validation is turned down by `BTL_HexFlasher`: the record
block keeps cursor, index and count, and nothing is programmed. -/
theorem BTL_HexFlasher_fails_validation (hal buf : Nat → Nat) (r : BTL_RecordTypeDef)
    (w : World) (hbad : failsValidation buf r.BTL_BUFFER_POINTER) :
    ∃ r1 w1, BTL_HexFlasher hal buf r w = (BTL_ERROR, r1, w1) ∧
      r1.BTL_BUFFER_POINTER = r.BTL_BUFFER_POINTER ∧
      r1.BTL_RECORD_INDEX = r.BTL_RECORD_INDEX ∧
      r1.BTL_NO_OF_BUFFER_RECORDS = r.BTL_NO_OF_BUFFER_RECORDS ∧
      w1.programs = w.programs := by
  have hv : ¬ (BTL_CheckRecord buf (dataRecordOf buf r) (dataWorld buf r w)).1 = BTL_OK :=
    fun hok => hbad.2 ((dataRecordOf_valid_iff buf r (dataWorld buf r w)).1 hok)
  obtain ⟨-, c2⟩ := BTL_CheckRecord_world buf (dataRecordOf buf r) (dataWorld buf r w)
  exact ⟨_, _, BTL_HexFlasher_data_invalid hal buf r w hbad.1 hv, rfl, rfl, rfl, c2⟩

/-- With the cursor at a Data record that fails validation, the loop of `BTL_FlashWrite`
makes one attempt per failure still allowed, then returns `BTL_ERROR`. -/
theorem BTL_FlashWrite_loop_retries (hal buf : Nat → Nat) (n : Nat) :
    ∀ (FlashFailure BTL_STATUS : Nat) (r : BTL_RecordTypeDef) (w : World),
      failsValidation buf r.BTL_BUFFER_POINTER →
      r.BTL_RECORD_INDEX < r.BTL_NO_OF_BUFFER_RECORDS →
      FlashFailure + n + 1 = MAX_TIMEOUT →
      BTL_FlashWrite_loop hal buf n FlashFailure BTL_STATUS r w = none ∧
      ∃ r1 w1, BTL_FlashWrite_loop hal buf (n + 1) FlashFailure BTL_STATUS r w
          = some (BTL_ERROR, r1, w1) ∧
        r1.BTL_BUFFER_POINTER = r.BTL_BUFFER_POINTER ∧ w1.programs = w.programs := by
  induction n with
  | zero =>
    intro ff st r w hbad hlt hff
    obtain ⟨r1, w1, hH, h1, -, -, h4⟩ := BTL_HexFlasher_fails_validation hal buf r w hbad
    refine ⟨BTL_FlashWrite_loop_no_fuel hal buf ff st r w hlt, r1, w1, ?_, h1, h4⟩
    rw [BTL_FlashWrite_loop_pass_failed hal buf 0 ff st BTL_ERROR r r1 w w1 hlt (by decide) hH]
    have hto : MAX_TIMEOUT ≤ (ff + 1) % 256 := by
      simp only [MAX_TIMEOUT] at hff ⊢
      omega
    rw [if_pos hto]
  | succ n ih =>
    intro ff st r w hbad hlt hff
    obtain ⟨r1, w1, hH, h1, h2, h3, h4⟩ := BTL_HexFlasher_fails_validation hal buf r w hbad
    have hto : ¬ MAX_TIMEOUT ≤ (ff + 1) % 256 := by
      simp only [MAX_TIMEOUT] at hff ⊢
      omega
    have hmod : (ff + 1) % 256 = ff + 1 := by
      simp only [MAX_TIMEOUT] at hff
      omega
    obtain ⟨i1, r2, w2, i2, i3, i4⟩ := ih (ff + 1) st r1 w1 (by rw [h1]; exact hbad)
      (by rw [h2, h3]; exact hlt) (by omega)
    constructor
    · rw [BTL_FlashWrite_loop_pass_failed hal buf n ff st BTL_ERROR r r1 w w1 hlt (by decide) hH,
        if_neg hto, hmod]
      exact i1
    · refine ⟨r2, w2, ?_, i3.trans h1, i4.trans h4⟩
      rw [BTL_FlashWrite_loop_pass_failed hal buf (n + 1) ff st BTL_ERROR r r1 w w1 hlt
        (by decide) hH, if_neg hto, hmod]
      exact i2

/-- C16. From the pass in which the cursor of `BTL_FlashWrite` is at an End-Of-File
record (type 0x01), with records still to be consumed and fewer than `MAX_TIMEOUT`
failures counted, the loop returns `BTL_OK`, programs nothing further (the flash writes
are those made before), leaves the cursor at that record and reads no character beyond
the header characters of that record; in particular a packet whose first record is
End-Of-File makes `BTL_FlashWrite` return `BTL_OK` without any flash write. -/
theorem BTL_FlashWrite_end_of_file (hal buf : Nat → Nat) (r : BTL_RecordTypeDef) (w : World)
    (hn : r.BTL_NO_OF_BUFFER_RECORDS < 256) :
    (∀ fuel FlashFailure BTL_STATUS : Nat,
      hexByte buf (r.BTL_BUFFER_POINTER + 6) (r.BTL_BUFFER_POINTER + 7) = BTL_EOF_RECORD_TYPE →
      r.BTL_RECORD_INDEX < r.BTL_NO_OF_BUFFER_RECORDS → FlashFailure < MAX_TIMEOUT →
      r.BTL_NO_OF_BUFFER_RECORDS - r.BTL_RECORD_INDEX ≤ fuel →
      ∃ r1 w1, BTL_FlashWrite_loop hal buf fuel FlashFailure BTL_STATUS r w
          = some (BTL_OK, r1, w1) ∧
        w1.programs = w.programs ∧ r1.BTL_BUFFER_POINTER = r.BTL_BUFFER_POINTER ∧
        ∀ i ∈ w1.reads, i ∈ w.reads ∨
          i ∈ [r.BTL_BUFFER_POINTER + 6, r.BTL_BUFFER_POINTER + 7, r.BTL_BUFFER_POINTER,
               r.BTL_BUFFER_POINTER + 1,
               r.BTL_BUFFER_POINTER
                 + hexByte buf r.BTL_BUFFER_POINTER (r.BTL_BUFFER_POINTER + 1) * 2 + 8,
               r.BTL_BUFFER_POINTER
                 + hexByte buf r.BTL_BUFFER_POINTER (r.BTL_BUFFER_POINTER + 1) * 2 + 9]) ∧
    (∀ dataLength : Nat, hexByte buf 6 7 = BTL_EOF_RECORD_TYPE →
      r.BTL_RECORD_INDEX < r.BTL_NO_OF_BUFFER_RECORDS →
      ∃ r1 w1, BTL_FlashWrite hal buf dataLength r w = some (BTL_OK, r1, w1) ∧
        w1.programs = w.programs ∧ r1.BTL_BUFFER_POINTER = 0) := by
  constructor
  · intro fuel ff st heof hlt hff hfuel
    obtain ⟨r1, w1, e1, e2, e3, -, e5⟩ := BTL_FlashWrite_loop_eof hal buf ff
      r.BTL_BUFFER_POINTER r.BTL_NO_OF_BUFFER_RECORDS heof hff (by omega) fuel st r w rfl rfl
      hfuel (Or.inl hlt)
    exact ⟨r1, w1, e1, e2, e3, e5⟩
  · intro dataLength heof hlt
    have heof0 : hexByte buf (0 + BTL_RT_0) (0 + BTL_RT_1) = BTL_EOF_RECORD_TYPE := by
      simpa using heof
    obtain ⟨r1, w1, e1, e2, e3, -, -⟩ := BTL_FlashWrite_loop_eof hal buf 0 0
      r.BTL_NO_OF_BUFFER_RECORDS heof0 (by decide) (by omega)
      (r.BTL_NO_OF_BUFFER_RECORDS + MAX_TIMEOUT) BTL_ERROR
      { r with BTL_BUFFER_POINTER := 0 } w rfl rfl
      (by
        show r.BTL_NO_OF_BUFFER_RECORDS - r.BTL_RECORD_INDEX ≤ r.BTL_NO_OF_BUFFER_RECORDS + MAX_TIMEOUT
        omega)
      (Or.inl hlt)
    exact ⟨r1, w1, e1, e2, e3⟩

/-- Witness of C16: the packet Data, End-Of-File, Data with three records, taken up at
the End-Of-File record (cursor 19, one record consumed); the packet that starts with an
End-Of-File record; and the whole run over the packet of three records, which programs
the four bytes of the first record only. -/
theorem BTL_FlashWrite_end_of_file_witness :
    (∃ r1 w1, BTL_FlashWrite_loop halOk (bufOfList (asciiBytes dataEofDataText)) 7 0 BTL_OK
          { record0 with
            BTL_NO_OF_BUFFER_RECORDS := 3, BTL_RECORD_INDEX := 1, BTL_BUFFER_POINTER := 19 }
          worldAfterData = some (BTL_OK, r1, w1) ∧
        w1.programs = worldAfterData.programs ∧ r1.BTL_BUFFER_POINTER = 19 ∧
        ∀ i ∈ w1.reads, i ∈ worldAfterData.reads ∨
          i ∈ [19 + 6, 19 + 7, 19, 19 + 1,
               19 + hexByte (bufOfList (asciiBytes dataEofDataText)) 19 (19 + 1) * 2 + 8,
               19 + hexByte (bufOfList (asciiBytes dataEofDataText)) 19 (19 + 1) * 2 + 9]) ∧
    (∃ r1 w1, BTL_FlashWrite halOk (bufOfList (asciiBytes eofText)) 11
          { record0 with BTL_NO_OF_BUFFER_RECORDS := 1 } world0 = some (BTL_OK, r1, w1) ∧
        w1.programs = world0.programs ∧ r1.BTL_BUFFER_POINTER = 0) ∧
    (BTL_FlashWrite halOk (bufOfList (asciiBytes dataEofDataText)) 49
        { record0 with BTL_NO_OF_BUFFER_RECORDS := 3 } world0).map
        (fun res => (res.1, res.2.1.BTL_BUFFER_POINTER, res.2.2.programs))
      = some (BTL_OK, 19, worldAfterData.programs) :=
  ⟨(BTL_FlashWrite_end_of_file halOk (bufOfList (asciiBytes dataEofDataText))
      { record0 with
        BTL_NO_OF_BUFFER_RECORDS := 3, BTL_RECORD_INDEX := 1, BTL_BUFFER_POINTER := 19 }
      worldAfterData (by decide)).1 7 0 BTL_OK (by decide) (by decide) (by decide) (by decide),
   (BTL_FlashWrite_end_of_file halOk (bufOfList (asciiBytes eofText))
      { record0 with BTL_NO_OF_BUFFER_RECORDS := 1 } world0 (by decide)).2 11
      (by decide) (by decide),
   by decide⟩

/-- C20. `BTL_FlashWrite` returns for every buffer content, every record count (a
`uint8_t`) and every sequence of flash-driver results, after at most
record count + `MAX_TIMEOUT` - 1 passes of its loop (one call of `BTL_HexFlasher` each);
the pass in which the fifth failure is counted returns `BTL_ERROR` without a further
call; and with the cursor at a Data record that fails validation and no failure counted
so far, four attempts do not end the loop and the fifth returns `BTL_ERROR`, the cursor
still at that record and nothing programmed. -/
theorem BTL_FlashWrite_terminates (hal buf : Nat → Nat) (dataLength : Nat)
    (r : BTL_RecordTypeDef) (w : World) (hn : r.BTL_NO_OF_BUFFER_RECORDS < 256) :
    (∃ res, BTL_FlashWrite_loop hal buf (r.BTL_NO_OF_BUFFER_RECORDS + MAX_TIMEOUT - 1) 0
          BTL_ERROR { r with BTL_BUFFER_POINTER := 0 } w = some res ∧
        BTL_FlashWrite hal buf dataLength r w = some res) ∧
    (∀ BTL_STATUS : Nat, r.BTL_RECORD_INDEX < r.BTL_NO_OF_BUFFER_RECORDS →
      (BTL_HexFlasher hal buf r w).1 ≠ BTL_OK →
      ∃ r1 w1, BTL_FlashWrite_loop hal buf 1 (MAX_TIMEOUT - 1) BTL_STATUS r w
        = some (BTL_ERROR, r1, w1)) ∧
    (∀ BTL_STATUS : Nat, failsValidation buf r.BTL_BUFFER_POINTER →
      r.BTL_RECORD_INDEX < r.BTL_NO_OF_BUFFER_RECORDS →
      BTL_FlashWrite_loop hal buf (MAX_TIMEOUT - 1) 0 BTL_STATUS r w = none ∧
      ∃ r1 w1, BTL_FlashWrite_loop hal buf MAX_TIMEOUT 0 BTL_STATUS r w
          = some (BTL_ERROR, r1, w1) ∧
        r1.BTL_BUFFER_POINTER = r.BTL_BUFFER_POINTER ∧ w1.programs = w.programs) := by
  refine ⟨?_, ?_, ?_⟩
  · obtain ⟨res, hres⟩ := BTL_FlashWrite_loop_returns hal buf
      (r.BTL_NO_OF_BUFFER_RECORDS + MAX_TIMEOUT - 1) 0 BTL_ERROR
      { r with BTL_BUFFER_POINTER := 0 } w
      (by
        show r.BTL_NO_OF_BUFFER_RECORDS < 65536
        omega)
      (by decide)
      (by
        show r.BTL_NO_OF_BUFFER_RECORDS - r.BTL_RECORD_INDEX + (4 - 0)
          ≤ r.BTL_NO_OF_BUFFER_RECORDS + MAX_TIMEOUT - 1
        simp only [MAX_TIMEOUT]
        omega)
    refine ⟨res, hres, ?_⟩
    have h := BTL_FlashWrite_loop_more_fuel hal buf _ _ _ _ _ _ hres
    have e : r.BTL_NO_OF_BUFFER_RECORDS + MAX_TIMEOUT - 1 + 1
        = r.BTL_NO_OF_BUFFER_RECORDS + MAX_TIMEOUT := by
      simp only [MAX_TIMEOUT]
      omega
    rw [e] at h
    exact h
  · intro st hlt hfail
    have hH : BTL_HexFlasher hal buf r w
        = ((BTL_HexFlasher hal buf r w).1, (BTL_HexFlasher hal buf r w).2.1,
           (BTL_HexFlasher hal buf r w).2.2) := rfl
    refine ⟨(BTL_HexFlasher hal buf r w).2.1, (BTL_HexFlasher hal buf r w).2.2, ?_⟩
    rw [BTL_FlashWrite_loop_pass_failed hal buf 0 (MAX_TIMEOUT - 1) st _ r _ w _ hlt hfail hH]
    rw [if_pos (by decide)]
  · intro st hbad hlt
    exact BTL_FlashWrite_loop_retries hal buf 4 0 st r w hbad hlt (by decide)

/-- Witness of C20: the packet of one Data record whose checksum does not match. -/
theorem BTL_FlashWrite_terminates_witness :
    (∃ res, BTL_FlashWrite_loop halOk (bufOfList (asciiBytes badChecksumText))
          (1 + MAX_TIMEOUT - 1) 0 BTL_ERROR
          { record0 with BTL_NO_OF_BUFFER_RECORDS := 1 } world0 = some res ∧
        BTL_FlashWrite halOk (bufOfList (asciiBytes badChecksumText)) 19
          { record0 with BTL_NO_OF_BUFFER_RECORDS := 1 } world0 = some res) ∧
    (∃ r1 w1, BTL_FlashWrite_loop halOk (bufOfList (asciiBytes badChecksumText)) 1
          (MAX_TIMEOUT - 1) BTL_ERROR { record0 with BTL_NO_OF_BUFFER_RECORDS := 1 } world0
        = some (BTL_ERROR, r1, w1)) ∧
    (BTL_FlashWrite_loop halOk (bufOfList (asciiBytes badChecksumText)) (MAX_TIMEOUT - 1) 0
          BTL_ERROR { record0 with BTL_NO_OF_BUFFER_RECORDS := 1 } world0 = none ∧
      ∃ r1 w1, BTL_FlashWrite_loop halOk (bufOfList (asciiBytes badChecksumText)) MAX_TIMEOUT 0
          BTL_ERROR { record0 with BTL_NO_OF_BUFFER_RECORDS := 1 } world0
          = some (BTL_ERROR, r1, w1) ∧
        r1.BTL_BUFFER_POINTER = 0 ∧ w1.programs = world0.programs) :=
  ⟨(BTL_FlashWrite_terminates halOk (bufOfList (asciiBytes badChecksumText)) 19
      { record0 with BTL_NO_OF_BUFFER_RECORDS := 1 } world0 (by decide)).1,
   (BTL_FlashWrite_terminates halOk (bufOfList (asciiBytes badChecksumText)) 19
      { record0 with BTL_NO_OF_BUFFER_RECORDS := 1 } world0 (by decide)).2.1 BTL_ERROR
      (by decide) (by decide),
   (BTL_FlashWrite_terminates halOk (bufOfList (asciiBytes badChecksumText)) 19
      { record0 with BTL_NO_OF_BUFFER_RECORDS := 1 } world0 (by decide)).2.2 BTL_ERROR
      (by decide) (by decide)⟩

/-! ## A packet that announces no record -/

/-- With a record count of 0 the loop of `BTL_FlashWrite` is not entered: the initial
`BTL_ERROR` is returned, the cursor is 0 and the world is untouched. -/
theorem BTL_FlashWrite_zero_count (hal buf : Nat → Nat) (dataLength : Nat)
    (r : BTL_RecordTypeDef) (w : World) (h0 : r.BTL_NO_OF_BUFFER_RECORDS = 0) :
    BTL_FlashWrite hal buf dataLength r w
      = some (BTL_ERROR, { r with BTL_BUFFER_POINTER := 0 }, w) := by
  unfold BTL_FlashWrite
  exact BTL_FlashWrite_loop_done hal buf _ 0 BTL_ERROR _ w (by simp [h0])

/-- One pass of the loop of `BTL_UpdateFirmware` on a packet whose record count is 0. -/
theorem BTL_UpdateFirmware_loop_zero_count (env : Env) (rxs : List Rx) (FlashFailure : Nat)
    (messageBuffer : Nat → Nat) (dataLength : Nat) (w : World) (block : BTL_RecordTypeDef)
    (h0 : rd messageBuffer BTL_BUFFER_RECORDS0 = 0)
    (hm : env.malloc w.mallocs = some block) :
    BTL_UpdateFirmware_loop env rxs FlashFailure messageBuffer dataLength w
      = some (BTL_ERROR,
          { (BTL_SendNAck env
              { w with
                mallocs := w.mallocs + 1
                packets := w.packets ++ [rd messageBuffer BTL_DONE_FLAG] }).2 with
            flashLocked := true }) := by
  unfold BTL_UpdateFirmware_loop
  simp only [hm]
  rw [BTL_FlashWrite_zero_count _ _ _ _ _ (by exact h0)]
  rfl

/-- C21. For a packet whose record count is 0, `BTL_FlashWrite` returns `BTL_ERROR`
without entering its loop: the world (reads and program calls included) is as before.
The loop of `BTL_UpdateFirmware` therefore sends the NACK, locks the flash and returns
`BTL_ERROR` on such a packet, whichever packet of the session it is; for the first packet
of a session this reads: after the ACK, the reception and the erase, the replies are the
ACK and the NACK, nothing is read from the body, nothing programmed, nothing further
received, and the function returns `BTL_ERROR` with the flash locked. -/
theorem BTL_UpdateFirmware_no_records (env : Env) (rx : Rx) (rest : List Rx)
    (hal buf messageBuffer : Nat → Nat) (dataLength FlashFailure : Nat)
    (r block : BTL_RecordTypeDef) (w : World) :
    (r.BTL_NO_OF_BUFFER_RECORDS = 0 →
      BTL_FlashWrite hal buf dataLength r w
        = some (BTL_ERROR, { r with BTL_BUFFER_POINTER := 0 }, w)) ∧
    (rd messageBuffer BTL_BUFFER_RECORDS0 = 0 → env.malloc w.mallocs = some block →
      BTL_UpdateFirmware_loop env rest FlashFailure messageBuffer dataLength w
        = some (BTL_ERROR,
            { (BTL_SendNAck env
                { w with
                  mallocs := w.mallocs + 1
                  packets := w.packets ++ [rd messageBuffer BTL_DONE_FLAG] }).2 with
              flashLocked := true })) ∧
    ((BTL_SendAck env BTL_APP_FLASH w).1 = BTL_OK → rx.status = HAL_OK →
      env.sectorError % 4294967296 = 0xFFFFFFFF → env.malloc w.mallocs = some block →
      rd (received rx messageBuffer BTL_DONE_FLAG ((dataLength + 4) % 65536))
          BTL_BUFFER_RECORDS0 = 0 →
      ∃ w1, BTL_UpdateFirmware env (rx :: rest) messageBuffer dataLength w
          = some (BTL_ERROR, w1) ∧
        w1.flashLocked = true ∧ w1.programs = w.programs ∧ w1.reads = w.reads ∧
        w1.uartTx = w.uartTx ++ [formatChar BTL_APP_FLASH, formatChar 0] ∧
        w1.uartRx = w.uartRx ++ [(BTL_DONE_FLAG, (dataLength + 4) % 65536)] ∧
        w1.mallocs = w.mallocs + 1) := by
  refine ⟨fun h0 => BTL_FlashWrite_zero_count hal buf dataLength r w h0,
    fun h0 hm => BTL_UpdateFirmware_loop_zero_count env rest FlashFailure messageBuffer
      dataLength w block h0 hm, ?_⟩
  intro hack hrx herase hm h0
  unfold BTL_UpdateFirmware
  have h1 : ¬ (BTL_SendAck env BTL_APP_FLASH w).1 ≠ BTL_OK := fun h => h hack
  have h2 : ¬ rx.status ≠ HAL_OK := fun h => h hrx
  rw [if_neg h1]
  simp only
  rw [if_neg h2, if_pos herase]
  refine ⟨_, BTL_UpdateFirmware_loop_zero_count env rest 0 _ dataLength _ block h0 hm,
    rfl, rfl, rfl, ?_, rfl, rfl⟩
  simp [BTL_SendNAck, BTL_SendAck, BTL_SendMessage]

/-- Witness of C21: a session whose only packet announces no record, although its body
holds an End-Of-File record and its done flag is 0x00. -/
theorem BTL_UpdateFirmware_no_records_witness :
    (record0.BTL_NO_OF_BUFFER_RECORDS = 0 ∧
      BTL_FlashWrite halOk (bufOfList (asciiBytes eofText)) 11 record0 world0
        = some (BTL_ERROR, { record0 with BTL_BUFFER_POINTER := 0 }, world0)) ∧
    (∃ w1, BTL_UpdateFirmware envOk (noRecordsPacket :: []) (fun _ => 0) 11 world0
        = some (BTL_ERROR, w1) ∧
      w1.flashLocked = true ∧ w1.programs = world0.programs ∧ w1.reads = world0.reads ∧
      w1.uartTx = world0.uartTx ++ [formatChar BTL_APP_FLASH, formatChar 0] ∧
      w1.uartRx = world0.uartRx ++ [(BTL_DONE_FLAG, (11 + 4) % 65536)] ∧
      w1.mallocs = world0.mallocs + 1) :=
  ⟨⟨rfl, (BTL_UpdateFirmware_no_records envOk noRecordsPacket [] halOk
      (bufOfList (asciiBytes eofText)) (fun _ => 0) 11 0 record0 record0 world0).1 rfl⟩,
    (BTL_UpdateFirmware_no_records envOk noRecordsPacket [] halOk
      (bufOfList (asciiBytes eofText)) (fun _ => 0) 11 0 record0 record0 world0).2.2
      (by decide) (by decide) (by decide) (by decide) (by decide)⟩

/-- C22, the code at the failing inputs. `BTL_FlashWrite` never looks at `dataLength`:
its result is the same for every value of it. On the 19-character body
"F4000000DEADBEEFC4" (one record announced) each of the five attempts reads the checksum
characters at the indices 496 and 497, computed from the count field F4 before
`BTL_CheckRecord` compares it with `BTL_MAX_CC`; the same happens when the packet comes in
through `BTL_UpdateFirmware`. On the 19-character body "04000000DEADBEEFC4" with two
records announced, the second pass decodes a record at the cursor 19, behind the body
(indices 19 to 28), and the packet is reported as `BTL_OK`. -/
theorem BTL_FlashWrite_reads_outside_body :
    (∀ (hal buf : Nat → Nat) (d1 d2 : Nat) (r : BTL_RecordTypeDef) (w : World),
      BTL_FlashWrite hal buf d1 r w = BTL_FlashWrite hal buf d2 r w) ∧
    (asciiBytes wrongCountText).length = 19 ∧
    (BTL_FlashWrite halOk (bufOfList (asciiBytes wrongCountText)) 19
        { record0 with BTL_NO_OF_BUFFER_RECORDS := 1 } world0).map
      (fun s => (s.1, readsOutside 19 s.2.2.reads))
      = some (BTL_ERROR, [496, 497, 496, 497, 496, 497, 496, 497, 496, 497]) ∧
    (BTL_UpdateFirmware envOk [wrongCountPacket] (fun _ => 0) 19 world0).map
      (fun res => (res.1, readsOutside 19 res.2.reads))
      = some (BTL_ERROR, [496, 497, 496, 497, 496, 497, 496, 497, 496, 497]) ∧
    (asciiBytes dataText).length = 19 ∧
    (BTL_FlashWrite halOk (bufOfList (asciiBytes dataText)) 19
        { record0 with BTL_NO_OF_BUFFER_RECORDS := 2 } world0).map
      (fun s => (s.1, readsOutside 19 s.2.2.reads))
      = some (BTL_OK,
          [25, 26, 19, 20, 27, 28, 21, 22, 23, 24, 19, 20, 21, 22, 23, 24, 25, 26]) := by
  refine ⟨fun _ _ _ _ _ _ => rfl, by decide, ?_, ?_, by decide, ?_⟩
  · decide!
  · decide!
  · decide!

end BTL
